import Mathlib

/-!
Shallow embedding of the PDF content-stream compiler in `src/pdf/SkPDFDevice.cpp`:
the graphic-state diff emitter (`GraphicStackState`), the content-entry chain
(`setUpContentEntry` / `finishContentEntry`), the compositing emulation helpers and
the resource index tables.  Scalars (`SkScalar`) are modelled by `Rat`: every claim
under study is about control flow, instruction counts and cached-state comparisons,
never about floating-point rounding.  Output streams are modelled as lists of
`Instr` tokens, one token per emitted PDF operator group.
-/

/-- 2D affine transform, row-major `[sx kx tx; ky sy ty]` (mirrors `SkMatrix`
restricted to the affine components, which is all the PDF device uses). -/
structure SkMatrix where
  sx : Rat
  kx : Rat
  tx : Rat
  ky : Rat
  sy : Rat
  ty : Rat
deriving DecidableEq, Repr

def SkMatrix.identity : SkMatrix := ⟨1, 0, 0, 0, 1, 0⟩

instance : Inhabited SkMatrix := ⟨SkMatrix.identity⟩

def SkMatrix.setTranslate (x y : Rat) : SkMatrix := ⟨1, 0, x, 0, 1, y⟩

def SkMatrix.mapPoint (m : SkMatrix) (p : Rat × Rat) : Rat × Rat :=
  (m.sx * p.1 + m.kx * p.2 + m.tx, m.ky * p.1 + m.sy * p.2 + m.ty)

/-- Matrix composition: `(mul a b)` applies `b` first, then `a`. -/
def SkMatrix.mul (a b : SkMatrix) : SkMatrix :=
  ⟨a.sx * b.sx + a.kx * b.ky, a.sx * b.kx + a.kx * b.sy, a.sx * b.tx + a.kx * b.ty + a.tx,
   a.ky * b.sx + a.sy * b.ky, a.ky * b.kx + a.sy * b.sy, a.ky * b.tx + a.sy * b.ty + a.ty⟩

/-- `m.preConcat o` in Skia: `m := m * o` (apply `o` first). -/
def SkMatrix.preConcatM (m o : SkMatrix) : SkMatrix := SkMatrix.mul m o

/-- `m.postConcat o` in Skia: `m := o * m` (apply `m` first). -/
def SkMatrix.postConcatM (m o : SkMatrix) : SkMatrix := SkMatrix.mul o m

/-- `SkMatrix::invert`: `none` when the matrix is singular (the caller decides
what to do with the failure, as in the source). -/
def SkMatrix.invert (m : SkMatrix) : Option SkMatrix :=
  let det := m.sx * m.sy - m.kx * m.ky
  if det = 0 then none
  else
    let isx := m.sy / det
    let ikx := -m.kx / det
    let iky := -m.ky / det
    let isy := m.sx / det
    some ⟨isx, ikx, -(isx * m.tx + ikx * m.ty),
          iky, isy, -(iky * m.tx + isy * m.ty)⟩

/-- Rectangle with rational edges, mirrors `SkRect` (left, top, right, bottom). -/
structure SkRect where
  l : Rat
  t : Rat
  r : Rat
  b : Rat
deriving DecidableEq, Repr

def SkRect.makeWH (w h : Rat) : SkRect := ⟨0, 0, w, h⟩

/-- `SkMatrix::mapRect`: bounding box of the four mapped corners. -/
def SkMatrix.mapRect (m : SkMatrix) (rc : SkRect) : SkRect :=
  let p1 := m.mapPoint (rc.l, rc.t)
  let p2 := m.mapPoint (rc.r, rc.t)
  let p3 := m.mapPoint (rc.r, rc.b)
  let p4 := m.mapPoint (rc.l, rc.b)
  ⟨min (min p1.1 p2.1) (min p3.1 p4.1), min (min p1.2 p2.2) (min p3.2 p4.2),
   max (max p1.1 p2.1) (max p3.1 p4.1), max (max p1.2 p2.2) (max p3.2 p4.2)⟩

/-- Integer rectangle, mirrors `SkIRect`. -/
structure SkIRect where
  l : Int
  t : Int
  r : Int
  b : Int
deriving DecidableEq, Repr

/-- `SkPath::FillType`. -/
inductive FillType
  | winding
  | evenOdd
  | inverseWinding
  | inverseEvenOdd
deriving DecidableEq, Repr

def FillType.isInverse : FillType → Bool
  | .inverseWinding => true
  | .inverseEvenOdd => true
  | _ => false

/-- A path: a fill rule plus its geometry, modelled as the list of its points
(the claims only ever move geometry around whole, never inspect it). -/
structure SkPath where
  fill : FillType
  pts : List (Rat × Rat)
deriving DecidableEq, Repr

def SkPath.transformBy (p : SkPath) (m : SkMatrix) : SkPath :=
  ⟨p.fill, p.pts.map m.mapPoint⟩

def SkPath.isInverseFillType (p : SkPath) : Bool := p.fill.isInverse

/-- Resolved pixel region, mirrors `SkRegion` as a list of spans; empty list =
empty region (`SkRegion::isEmpty`). -/
structure SkRegion where
  runs : List SkIRect
deriving DecidableEq, Repr

def SkRegion.isEmptyR (rg : SkRegion) : Bool := rg.runs.isEmpty

def SkRegion.getBounds (rg : SkRegion) : SkIRect :=
  match rg.runs with
  | [] => ⟨0, 0, 0, 0⟩
  | a :: rest => rest.foldl
      (fun bx x => ⟨min bx.l x.l, min bx.t x.t, max bx.r x.r, max bx.b x.b⟩) a

/-- Modelled from the spec: `SkRegion::getBoundaryPath` is an external geometry
collaborator ("resolved-region-to-boundary-shape extraction", spec section 6); the
model returns a winding-fill path tracing each span's corners. -/
def SkRegion.getBoundaryPath (rg : SkRegion) : SkPath :=
  ⟨FillType.winding,
   (rg.runs.map (fun q =>
      [((q.l : Rat), (q.t : Rat)), ((q.r : Rat), (q.t : Rat)),
       ((q.r : Rat), (q.b : Rat)), ((q.l : Rat), (q.b : Rat))])).flatten⟩

/-- `SkRegion::Op` combine operations. -/
inductive RegionOp
  | difference
  | intersect
  | union
  | xorOp
  | reverseDifference
  | replace
deriving DecidableEq, Repr

/-- One element of an `SkClipStack`, as seen through `SkClipStack::B2FIter::Clip`:
either a rect or a path (the source checks `fRect` first), plus the combine op. -/
structure ClipEl where
  rect : Option SkRect
  path : Option SkPath
  op : RegionOp
deriving DecidableEq, Repr

/-- A clip stack is its bottom-to-front element list (`SkClipStack` compares
element-wise, and `B2FIter` walks in this order). -/
abbrev ClipStack := List ClipEl

/-- `SkXfermode::Mode`, restricted to the values the device ever branches on. -/
inductive XferMode
  | clear
  | src
  | dst
  | srcOver
  | dstOver
  | srcIn
  | dstIn
  | srcOut
  | dstOut
  | srcATop
  | dstATop
  | xorMode
  | plus
deriving DecidableEq, Repr

/-- 32-bit ARGB color as a natural number. -/
abbrev SkColor := Nat

def SkColorSetA (c a : Nat) : Nat := c % 16777216 + a * 16777216

def SK_ColorBLACK : SkColor := 4278190080

/-- `GraphicStateEntry` of `SkPDFDevice.cpp` (lines 124-162): the captured state
a content entry carries, and also the per-frame cache of `GraphicStackState`.
`fTextSize` is NaN-initialised in the source; NaN compares unequal to everything,
which `Option` (with `none` as NaN) reproduces. -/
structure GraphicStateEntry where
  fMatrix : SkMatrix
  fClipStack : ClipStack
  fClipRegion : SkRegion
  fColor : SkColor
  fTextScaleX : Rat
  fTextFill : Nat
  fShaderIndex : Int
  fGraphicStateIndex : Int
  fFont : Option Nat
  fTextSize : Option Rat
deriving DecidableEq, Repr

/-- The `GraphicStateEntry` constructor (lines 154-162). -/
def GraphicStateEntry.init : GraphicStateEntry :=
  { fMatrix := SkMatrix.identity
    fClipStack := []
    fClipRegion := ⟨[]⟩
    fColor := SK_ColorBLACK
    fTextScaleX := 1
    fTextFill := 0
    fShaderIndex := -1
    fGraphicStateIndex := -1
    fFont := none
    fTextSize := none }

instance : Inhabited GraphicStateEntry := ⟨GraphicStateEntry.init⟩

/-- `GraphicStateEntry::compareInitialState` (lines 164-173). -/
def GraphicStateEntry.compareInitialState (a b : GraphicStateEntry) : Bool :=
  a.fColor = b.fColor &&
  a.fShaderIndex = b.fShaderIndex &&
  a.fGraphicStateIndex = b.fGraphicStateIndex &&
  a.fMatrix = b.fMatrix &&
  a.fClipStack = b.fClipStack &&
  (a.fTextScaleX = 0 || b.fTextScaleX = 0 ||
    (a.fTextScaleX = b.fTextScaleX && a.fTextFill = b.fTextFill))

/-- One token of the emitted content stream; each constructor stands for one
operator group the source writes in a single call. -/
inductive Instr
  | save
  | restore
  | pathData (p : SkPath)
  | rectData (r : SkRect)
  | clipNonZero
  | clipEvenOdd
  | concatTransform (m : SkMatrix)
  | setPattern (i : Int)
  | setColor (c : SkColor)
  | applyGS (i : Int)
  | setTextScale (x : Rat)
  | setTextFill (f : Nat)
  | paintOp (style : Nat) (fill : FillType)
  | drawXObject (i : Int)
deriving DecidableEq, Repr

/-- `GraphicStackState::kMaxStackDepth` (line 199). -/
def kMaxStackDepth : Nat := 12

/-- `GraphicStackState` (lines 175-203): the frame array is kept as a list whose
head is the current frame `fEntries[fStackDepth]` and whose last element is the
immutable base frame `fEntries[0]`; the list length is `fStackDepth + 1`.
`ok` records that no `SkASSERT` on the stack depth has fired. -/
structure GraphicStackState where
  frames : List GraphicStateEntry
  stream : List Instr
  ok : Bool
deriving DecidableEq, Repr

def GraphicStackState.depth (s : GraphicStackState) : Nat := s.frames.length - 1

def GraphicStackState.current (s : GraphicStackState) : GraphicStateEntry :=
  s.frames.headD GraphicStateEntry.init

def GraphicStackState.frame0 (s : GraphicStackState) : GraphicStateEntry :=
  s.frames.getLastD GraphicStateEntry.init

def GraphicStackState.emitL (s : GraphicStackState) (l : List Instr) : GraphicStackState :=
  { s with stream := s.stream ++ l }

def GraphicStackState.setCur (s : GraphicStackState)
    (f : GraphicStateEntry → GraphicStateEntry) : GraphicStackState :=
  { s with frames := match s.frames with
                     | [] => []
                     | a :: rest => f a :: rest }

/-- `GraphicStackState` constructor: frame 0 starts as a default entry with the
inherited clip installed (lines 177-184). -/
def GraphicStackState.start (cs : ClipStack) (cr : SkRegion) : GraphicStackState :=
  { frames := [{ GraphicStateEntry.init with fClipStack := cs, fClipRegion := cr }]
    stream := []
    ok := true }

/-- `GraphicStackState::push` (lines 211-216): assert depth bound, write `q`,
duplicate the current frame. -/
def GraphicStackState.push (s : GraphicStackState) : GraphicStackState :=
  { frames := s.current :: s.frames
    stream := s.stream ++ [Instr.save]
    ok := s.ok && decide (s.depth < kMaxStackDepth) }

/-- `GraphicStackState::pop` (lines 218-222): assert depth positive, write `Q`,
discard the top frame. -/
def GraphicStackState.pop (s : GraphicStackState) : GraphicStackState :=
  { frames := s.frames.tail
    stream := s.stream ++ [Instr.restore]
    ok := s.ok && decide (0 < s.depth) }

/-- `GraphicStackState::drainStack` (lines 205-209): pop while the depth is
positive.  Structural recursion over the frame list; each step appends exactly
what `pop` appends, and the `0 < depth` assertion holds on every iteration. -/
def drainGo : List GraphicStateEntry → List Instr → Bool → GraphicStackState
  | [], st, ok => ⟨[], st, ok⟩
  | [f], st, ok => ⟨[f], st, ok⟩
  | _ :: f :: rest, st, ok => drainGo (f :: rest) (st ++ [Instr.restore]) ok

def GraphicStackState.drainStack (s : GraphicStackState) : GraphicStackState :=
  drainGo s.frames s.stream s.ok

/-- `skip_clip_stack_prefix` (lines 227-244) leaves the iterator positioned just
past the inherited prefix; on lists that is dropping the prefix length. -/
def clipStackSuffix (pre stack : ClipStack) : ClipStack :=
  stack.drop pre.length

/-- `emit_clip` (lines 246-266): path data (or rectangle data with winding fill)
followed by one clip operator, `W* n` for even-odd and `W n` otherwise. -/
def emitClipInstrs (clipPath : Option SkPath) (clipRect : Option SkRect) : List Instr :=
  match clipPath with
  | some p =>
      [Instr.pathData p,
       if p.fill = FillType.evenOdd then Instr.clipEvenOdd else Instr.clipNonZero]
  | none =>
      match clipRect with
      | some rc => [Instr.rectData rc, Instr.clipNonZero]
      | none => []

/-- One iteration of the per-element replay loop in `updateClip` (lines 317-331):
rects are mapped by the translation, paths transformed by it; the source checks
`fRect` first. -/
def emitClipEl (tm : SkMatrix) (e : ClipEl) : List Instr :=
  match e.rect with
  | some rc => emitClipInstrs none (some (tm.mapRect rc))
  | none =>
      match e.path with
      | some p => emitClipInstrs (some (p.transformBy tm)) none
      | none => []

/-- The fallback test of `updateClip` (lines 299-307): any non-intersect op, or
any path element with an inverse fill type, forces the region fallback. -/
def needRegionB (suffix : ClipStack) : Bool :=
  suffix.any (fun e =>
    e.op ≠ RegionOp.intersect ||
    (match e.path with
     | some p => p.isInverseFillType
     | none => false))

/-- The `while (fStackDepth > 0) { pop(); if (match) return; }` loop of
`updateClip` (lines 278-283).  Each step appends exactly what `pop` appends (the
`0 < depth` assertion holds structurally in the popping branch).  Returns the
state plus whether a matching frame was found. -/
def popLoopGo (cs : ClipStack) :
    List GraphicStateEntry → List Instr → Bool → GraphicStackState × Bool
  | [], st, ok => (⟨[], st, ok⟩, false)
  | [f], st, ok => (⟨[f], st, ok⟩, false)
  | _ :: f :: rest, st, ok =>
      let st' := st ++ [Instr.restore]
      if f.fClipStack = cs then (⟨f :: rest, st', ok⟩, true)
      else popLoopGo cs (f :: rest) st' ok

/-- `GraphicStackState::updateClip` (lines 271-335). -/
def GraphicStackState.updateClip (s : GraphicStackState) (cs : ClipStack)
    (cr : SkRegion) (tr : Int × Int) : GraphicStackState :=
  if cs = s.current.fClipStack then s
  else
    match popLoopGo cs s.frames s.stream s.ok with
    | (s1, true) => s1
    | (s1, false) =>
        let s2 := s1.push
        let suffix := clipStackSuffix s2.frame0.fClipStack cs
        let s3 :=
          if needRegionB suffix then
            s2.emitL (emitClipInstrs (some cr.getBoundaryPath) none)
          else
            let tm := SkMatrix.setTranslate (tr.1 : Rat) (tr.2 : Rat)
            s2.emitL ((suffix.map (emitClipEl tm)).flatten)
        s3.setCur (fun e => { e with fClipStack := cs, fClipRegion := cr })

/-- `GraphicStackState::updateMatrix` (lines 337-357). -/
def GraphicStackState.updateMatrix (s : GraphicStackState) (m : SkMatrix) :
    GraphicStackState :=
  if m = s.current.fMatrix then s
  else
    let s1 := if s.current.fMatrix = SkMatrix.identity then s else s.pop
    if m = SkMatrix.identity then s1
    else
      ((s1.push).emitL [Instr.concatTransform m]).setCur (fun e => { e with fMatrix := m })

/-- The fill-source step of `updateDrawingState` (lines 360-380): a pattern
reference when a shader index is set and differs, else a flat color when the
color differs or a pattern is currently active. -/
def udsFill (s : GraphicStackState) (st : GraphicStateEntry) : GraphicStackState :=
  if 0 ≤ st.fShaderIndex then
    if st.fShaderIndex ≠ s.current.fShaderIndex then
      (s.emitL [Instr.setPattern st.fShaderIndex]).setCur
        (fun e => { e with fShaderIndex := st.fShaderIndex })
    else s
  else
    if st.fColor ≠ s.current.fColor || 0 ≤ s.current.fShaderIndex then
      (s.emitL [Instr.setColor st.fColor]).setCur
        (fun e => { e with fColor := st.fColor, fShaderIndex := -1 })
    else s

/-- The extended-graphic-state step of `updateDrawingState` (lines 382-385). -/
def udsGS (s : GraphicStackState) (st : GraphicStateEntry) : GraphicStackState :=
  if st.fGraphicStateIndex ≠ s.current.fGraphicStateIndex then
    (s.emitL [Instr.applyGS st.fGraphicStateIndex]).setCur
      (fun e => { e with fGraphicStateIndex := st.fGraphicStateIndex })
  else s

/-- The text-scale half of the text step (lines 388-394). -/
def udsTextScale (s : GraphicStackState) (st : GraphicStateEntry) : GraphicStackState :=
  if st.fTextScaleX ≠ s.current.fTextScaleX then
    (s.emitL [Instr.setTextScale st.fTextScaleX]).setCur
      (fun e => { e with fTextScaleX := st.fTextScaleX })
  else s

/-- The text-fill half of the text step (lines 395-404). -/
def udsTextFill (s : GraphicStackState) (st : GraphicStateEntry) : GraphicStackState :=
  if st.fTextFill ≠ s.current.fTextFill then
    (s.emitL [Instr.setTextFill st.fTextFill]).setCur
      (fun e => { e with fTextFill := st.fTextFill })
  else s

/-- The text step of `updateDrawingState` (lines 387-405), active only when the
target carries a nonzero text scale. -/
def udsText (s : GraphicStackState) (st : GraphicStateEntry) : GraphicStackState :=
  if st.fTextScaleX ≠ 0 then udsTextFill (udsTextScale s st) st
  else s

/-- `GraphicStackState::updateDrawingState` (lines 359-406): fill source, then
extended graphic state, then (only with a live text scale) text scale and fill. -/
def GraphicStackState.updateDrawingState (s : GraphicStackState)
    (st : GraphicStateEntry) : GraphicStackState :=
  udsText (udsGS (udsFill s st) st) st

/-- `SkPaint`, restricted to the fields `setUpContentEntry` and
`populateGraphicStateEntryFromPaint` read.  `xfermode = none` means no explicit
transfer mode object, which the source treats as source-over. -/
structure SkPaint where
  color : SkColor
  style : Nat
  textScaleX : Rat
  xfermode : Option XferMode
  shader : Option Nat
deriving DecidableEq, Repr

/-- `paint.getXfermode() ? asMode : kSrcOver_Mode` as done at lines 1173-1176. -/
def SkPaint.mode (p : SkPaint) : XferMode := p.xfermode.getD XferMode.srcOver

/-- A default-constructed `SkPaint` (the `stockPaint` of the emulation paths):
black, fill style, no transfer mode, no shader. -/
def SkPaint.stock : SkPaint :=
  { color := SK_ColorBLACK, style := 0, textScaleX := 1, xfermode := none, shader := none }

/-- External collaborators of the device (spec section 6), all deterministic:
canonical PDF shader lookup, color-shader detection, canonical graphic-state
objects for paints and soft masks, canonical font objects.  Objects are plain
`Nat` identifiers because the device only ever compares them for identity. -/
structure Collab where
  getPDFShader : Nat → SkMatrix → SkIRect → Option Nat
  shaderAsColor : Nat → Option SkColor
  gsForPaint : SkPaint → Nat
  smaskGS : Nat → Bool → Nat
  noSmaskGS : Nat
  fontResource : Nat → Nat → Nat

/-- `ContentEntry` (lines 408-412); `eid` models the entry's pointer identity. -/
structure ContentEntry where
  eid : Nat
  fState : GraphicStateEntry
  fContent : List Instr
deriving DecidableEq, Repr

/-- `SkPDFDevice` state: the entry chain (head = `fContentEntries`), the tail
pointer `fLastContentEntry` (by entry id), the four resource tables, and a
fresh-id counter standing in for heap allocation. -/
structure Device where
  existingClipStack : ClipStack
  existingClipRegion : SkRegion
  initialTransform : SkMatrix
  widthD : Rat
  heightD : Rat
  contentEntries : List ContentEntry
  lastContentEntry : Option Nat
  graphicStateResources : List Nat
  xObjectResources : List Nat
  fontResources : List Nat
  shaderResources : List Nat
  nextId : Nat
deriving DecidableEq, Repr

/-- `SkTDArray::find`: index of the first equal element, `-1` if absent. -/
def tdFind : List Nat → Nat → Int
  | [], _ => -1
  | a :: rest, x =>
      if a = x then 0
      else
        let r := tdFind rest x
        if r < 0 then -1 else r + 1

/-- `SkPDFDevice::addGraphicStateResource` (lines 1394-1404): find-or-append. -/
def addGraphicStateResource (d : Device) (gs : Nat) : Int × Device :=
  let r := tdFind d.graphicStateResources gs
  if r < 0 then
    ((d.graphicStateResources.length : Int),
     { d with graphicStateResources := d.graphicStateResources ++ [gs] })
  else (r, d)

/-- The shader interning step of `populateGraphicStateEntryFromPaint`
(lines 1361-1366): find-or-append on `fShaderResources`. -/
def addShaderResource (d : Device) (ps : Nat) : Int × Device :=
  let r := tdFind d.shaderResources ps
  if r < 0 then
    ((d.shaderResources.length : Int),
     { d with shaderResources := d.shaderResources ++ [ps] })
  else (r, d)

/-- `SkPDFDevice::getFontResourceIndex` (lines 1422-1432): canonical font from
the collaborator, then find-or-append on `fFontResources`. -/
def getFontResourceIndex (c : Collab) (d : Device) (typeface glyphID : Nat) :
    Int × Device :=
  let newFont := c.fontResource typeface glyphID
  let r := tdFind d.fontResources newFont
  if r < 0 then
    ((d.fontResources.length : Int),
     { d with fontResources := d.fontResources ++ [newFont] })
  else (r, d)

/-- The XObject registration idiom used at every site that records an XObject
(lines 935-936, 1135-1137, 1277+1288, 1463-1464): unconditional append, the
object's index being its position; there is no find step in the source. -/
def pushXObject (d : Device) (x : Nat) : Nat × Device :=
  (d.xObjectResources.length, { d with xObjectResources := d.xObjectResources ++ [x] })

/-- `SkPDFDevice::isContentEmpty` (lines 1297-1303). -/
def Device.isContentEmpty (d : Device) : Bool :=
  match d.contentEntries with
  | [] => true
  | e :: _ => e.fContent.isEmpty

/-- The entry `fLastContentEntry` points at, if any. -/
def Device.lastEntry? (d : Device) : Option ContentEntry :=
  match d.lastContentEntry with
  | none => none
  | some i => d.contentEntries.find? (fun e => e.eid = i)

/-- Append instructions to the buffer of the entry with the given id (drawing
into a `ContentEntry` returned by `setUpContentEntry`). -/
def appendToEntry (d : Device) (eid : Nat) (body : List Instr) : Device :=
  { d with contentEntries :=
      d.contentEntries.map (fun e =>
        if e.eid = eid then { e with fContent := e.fContent ++ body } else e) }

/-- `SkPDFDevice::createFormXObjectFromDevice` (lines 1083-1089): capture the
accumulated content as a fresh form XObject id, then `cleanUp()` + `init()`
reset the device to an empty recording state (chain and resource tables
cleared). -/
def createFormXObjectFromDevice (d : Device) : Nat × Device :=
  (d.nextId,
   { d with contentEntries := []
            lastContentEntry := none
            graphicStateResources := []
            xObjectResources := []
            fontResources := []
            shaderResources := []
            nextId := d.nextId + 1 })

/-- `SkPDFDevice::populateGraphicStateEntryFromPaint` (lines 1306-1392),
including the quirk that when a shader is present but yields no PDF shader, the
color derived from a constant-color gradient is overwritten again by the paint
color in the `else` branch at lines 1368-1371. -/
def populateGraphicStateEntryFromPaint (c : Collab) (d : Device) (m : SkMatrix)
    (cs : ClipStack) (cr : SkRegion) (paint : SkPaint) (hasText : Bool) :
    GraphicStateEntry × Device :=
  let base := { GraphicStateEntry.init with fMatrix := m, fClipStack := cs, fClipRegion := cr }
  let shaderStep : Option Nat × SkColor × SkColor :=
    match paint.shader with
    | none => (none, base.fColor, paint.color)
    | some sh =>
        let transform := SkMatrix.postConcatM m d.initialTransform
        let bounds := cr.getBounds
        match c.getPDFShader sh transform bounds with
        | some ps => (some ps, base.fColor, paint.color)
        | none =>
            match c.shaderAsColor sh with
            | some gc => (none, SkColorSetA gc 255, gc)
            | none => (none, 0, 0)
  let pdfShader := shaderStep.1
  let withShader : GraphicStateEntry × SkColor × Device :=
    match pdfShader with
    | some ps =>
        let r := addShaderResource d ps
        ({ base with fColor := shaderStep.2.1, fShaderIndex := r.1 }, shaderStep.2.2, r.2)
    | none =>
        ({ base with fShaderIndex := -1, fColor := SkColorSetA paint.color 255 },
         paint.color, d)
  let entry1 := withShader.1
  let col := withShader.2.1
  let d1 := withShader.2.2
  let gsObj :=
    if col = paint.color then c.gsForPaint paint
    else c.gsForPaint { paint with color := col }
  let rg := addGraphicStateResource d1 gsObj
  let entry2 := { entry1 with fGraphicStateIndex := rg.1 }
  let entry3 :=
    if hasText then { entry2 with fTextScaleX := paint.textScaleX, fTextFill := paint.style }
    else { entry2 with fTextScaleX := 0 }
  (entry3, rg.2)

/-- Lines 1156-1171 of `setUpContentEntry`: when no clip stack is supplied,
reuse the inherited one if the region matches, otherwise synthesize the
inherited stack plus one replace-op path element for the region boundary. -/
def resolveClipStack (d : Device) (cso : Option ClipStack) (cr : SkRegion) : ClipStack :=
  match cso with
  | some cs => cs
  | none =>
      if cr = d.existingClipRegion then d.existingClipStack
      else d.existingClipStack ++
        [{ rect := none, path := some cr.getBoundaryPath, op := RegionOp.replace }]

/-- Lines 1203-1230 of `setUpContentEntry`: entry reuse/allocation, the
tail-merge check, and chain linking.  Returns the id of the entry the caller
should draw into.  When the tail entry exists and is still empty it is reused in
place; the merge comparison then compares the freshly populated state against
itself (the source compares `entry->fState` with `fLastContentEntry->fState`,
the same object), so a non-dst-over call always returns the tail.  In the
dst-over + reused-empty-tail corner the source self-links the tail entry; a list
cannot represent that cycle, so the model places the updated entry at the head
above the stale chain — no claim exercises that corner. -/
def setUpCoreChain (c : Collab) (d : Device) (cs : ClipStack) (cr : SkRegion)
    (m : SkMatrix) (mode : XferMode) (paint : SkPaint) (hasText : Bool) :
    Option Nat × Device :=
  let lastOpt := d.lastEntry?
  let pr := populateGraphicStateEntryFromPaint c d m cs cr paint hasText
  let st := pr.1
  let d1 := pr.2
  match lastOpt with
  | some le =>
      if le.fContent.isEmpty then
        let d2 := { d1 with contentEntries :=
          d1.contentEntries.map (fun e => if e.eid = le.eid then { e with fState := st } else e) }
        if mode ≠ XferMode.dstOver then (some le.eid, d2)
        else
          (some le.eid,
           { d2 with contentEntries := { le with fState := st } :: d2.contentEntries })
      else
        let newE : ContentEntry := { eid := d1.nextId, fState := st, fContent := [] }
        let d2 := { d1 with nextId := d1.nextId + 1 }
        if mode ≠ XferMode.dstOver && st.compareInitialState le.fState then
          (some le.eid, d2)
        else if mode = XferMode.dstOver then
          (some newE.eid, { d2 with contentEntries := newE :: d2.contentEntries })
        else
          (some newE.eid,
           { d2 with contentEntries := d2.contentEntries ++ [newE]
                     lastContentEntry := some newE.eid })
  | none =>
      let newE : ContentEntry := { eid := d1.nextId, fState := st, fContent := [] }
      let d2 := { d1 with nextId := d1.nextId + 1 }
      (some newE.eid,
       { d2 with contentEntries := [newE], lastContentEntry := some newE.eid })

/-- `setUpContentEntry` as reached by the internal emulation helpers, whose
paints all carry the default (source-over) transfer mode: the emulation branches
at lines 1178-1201 are all skipped for source-over, leaving the empty-region
check, clip-stack resolution and the chain logic.  Defined separately to break
the source's (semantically stratified) recursion through `drawPaint`. -/
def setUpPlain (c : Collab) (d : Device) (cso : Option ClipStack) (cr : SkRegion)
    (m : SkMatrix) (paint : SkPaint) (hasText : Bool) : Option Nat × Device :=
  if cr.isEmptyR then (none, d)
  else setUpCoreChain c d (resolveClipStack d cso cr) cr m XferMode.srcOver paint hasText

/-- The instruction body `internalDrawPaint` (lines 570-587) appends: the device
bounds pushed through the inverse of (initial transform ∘ entry matrix), then a
fill paint operation. -/
def internalDrawPaintInstrs (d : Device) (stateMatrix : SkMatrix) (style : Nat) :
    List Instr :=
  let bbox := SkRect.makeWH d.widthD d.heightD
  let total := SkMatrix.preConcatM d.initialTransform stateMatrix
  let inv := (total.invert).getD SkMatrix.identity
  [Instr.rectData (inv.mapRect bbox), Instr.paintOp style FillType.winding]

/-- `internalDrawPaint` proper: look up the entry and append its instructions
(no-op when `setUpContentEntry` returned nothing). -/
def internalDrawPaint (d : Device) (paint : SkPaint) (eo : Option Nat) : Device :=
  match eo with
  | none => d
  | some eid =>
      match d.contentEntries.find? (fun e => e.eid = eid) with
      | none => d
      | some e => appendToEntry d eid (internalDrawPaintInstrs d e.fState.fMatrix paint.style)

/-- `SkPDFDevice::drawPaint` with the stock paint, as issued by
`drawFormXObjectWithClip` (lines 1114-1119): fill style, identity matrix, the
given clip.  The accessor's destructor calls `finishContentEntry` with
source-over, which returns immediately. -/
def drawPaintStock (c : Collab) (d : Device) (cs : ClipStack) (cr : SkRegion) : Device :=
  let r := setUpPlain c d (some cs) cr SkMatrix.identity SkPaint.stock false
  internalDrawPaint r.2 SkPaint.stock r.1

/-- `SkPDFDevice::drawFormXObjectWithClip` (lines 1103-1144): draw the clip
shape as a mask, flush it into a mask XObject, then draw `xobj` inside the
device's inherited clip bracketed by the soft-mask graphic state and its
removal. -/
def drawFormXObjectWithClip (c : Collab) (d : Device) (xobj : Nat)
    (cs : ClipStack) (cr : SkRegion) (invertClip : Bool) : Device :=
  if cr.isEmptyR && !invertClip then d
  else
    let d1 := drawPaintStock c d cs cr
    let mk := createFormXObjectFromDevice d1
    let sMask := c.smaskGS mk.1 invertClip
    let r := setUpPlain c mk.2 (some mk.2.existingClipStack) mk.2.existingClipRegion
               SkMatrix.identity SkPaint.stock false
    match r.1 with
    | none => r.2
    | some eid =>
        let g1 := addGraphicStateResource r.2 sMask
        let d2 := appendToEntry g1.2 eid [Instr.applyGS g1.1]
        let d3 := appendToEntry d2 eid [Instr.drawXObject (d2.xObjectResources.length : Int)]
        let d4 := { d3 with xObjectResources := d3.xObjectResources ++ [xobj] }
        let g2 := addGraphicStateResource d4 c.noSmaskGS
        appendToEntry g2.2 eid [Instr.applyGS g2.1]

/-- `SkPDFDevice::clearClipFromContent` (lines 1091-1101). -/
def clearClipFromContent (c : Collab) (d : Device) (cs : ClipStack) (cr : SkRegion) :
    Device :=
  if cr.isEmptyR || d.isContentEmpty then d
  else
    let p := createFormXObjectFromDevice d
    drawFormXObjectWithClip c p.2 p.1 cs cr true

/-- `SkPDFDevice::setUpContentEntry` (lines 1146-1231): empty-region bailout,
clip-stack resolution, compositing emulation prologue (clear/src flush the clip
area; the four smask modes flush the destination into `dst`), the
no-source-drawn bailout for clear/dst, then the chain logic.  Result:
(entry id to draw into, destination form XObject for the smask modes, device). -/
def setUpContentEntry (c : Collab) (d : Device) (cso : Option ClipStack)
    (cr : SkRegion) (m : SkMatrix) (paint : SkPaint) (hasText : Bool) :
    Option Nat × Option Nat × Device :=
  if cr.isEmptyR then (none, none, d)
  else
    let cs := resolveClipStack d cso cr
    let mode := paint.mode
    if mode = XferMode.clear || mode = XferMode.src then
      let d1 := clearClipFromContent c d cs cr
      if mode = XferMode.clear then (none, none, d1)
      else
        let r := setUpCoreChain c d1 cs cr m mode paint hasText
        (r.1, none, r.2)
    else if mode = XferMode.srcIn || mode = XferMode.dstIn ||
            mode = XferMode.srcOut || mode = XferMode.dstOut then
      if d.isContentEmpty then (none, none, d)
      else
        let p := createFormXObjectFromDevice d
        let r := setUpCoreChain c p.2 cs cr m mode paint hasText
        (r.1, some p.1, r.2)
    else if mode = XferMode.dst then (none, none, d)
    else
      let r := setUpCoreChain c d cs cr m mode paint hasText
      (r.1, none, r.2)

/-- `SkPDFDevice::finishContentEntry` (lines 1233-1295). -/
def finishContentEntry (c : Collab) (d : Device) (mode : XferMode)
    (dst : Option Nat) : Device :=
  if mode ≠ XferMode.srcIn && mode ≠ XferMode.dstIn &&
     mode ≠ XferMode.srcOut && mode ≠ XferMode.dstOut then d
  else
    match dst, d.contentEntries.head? with
    | some dstX, some headE =>
        let cs := headE.fState.fClipStack
        let cr := headE.fState.fClipRegion
        let sp : Option Nat × Device :=
          if !d.isContentEmpty then
            let p := createFormXObjectFromDevice d
            (some p.1, p.2)
          else (none, d)
        let d2 := drawFormXObjectWithClip c sp.2 dstX cs cr true
        match sp.1 with
        | none => d2
        | some srcX =>
            let r := setUpPlain c d2 (some d2.existingClipStack) d2.existingClipRegion
                       SkMatrix.identity SkPaint.stock false
            match r.1 with
            | none => r.2
            | some eid =>
                let smStep : Nat × Device :=
                  if mode = XferMode.srcIn || mode = XferMode.srcOut then
                    (c.smaskGS dstX (mode = XferMode.srcOut),
                     { r.2 with xObjectResources := r.2.xObjectResources ++ [srcX] })
                  else
                    (c.smaskGS srcX (mode = XferMode.dstOut), r.2)
                let g1 := addGraphicStateResource smStep.2 smStep.1
                let d5 := appendToEntry g1.2 eid [Instr.applyGS g1.1]
                let d6 := appendToEntry d5 eid
                  [Instr.drawXObject ((d5.xObjectResources.length : Int) - 1)]
                let g2 := addGraphicStateResource d6 c.noSmaskGS
                appendToEntry g2.2 eid [Instr.applyGS g2.1]
    | _, _ => d

/-- One public draw call through `ContentEntryAccessor`: set up the entry, draw
`body` into it, and finish (lines 416-456). -/
def drawCall (c : Collab) (d : Device) (cso : Option ClipStack) (cr : SkRegion)
    (m : SkMatrix) (paint : SkPaint) (hasText : Bool) (body : List Instr) : Device :=
  let r := setUpContentEntry c d cso cr m paint hasText
  let d1 := match r.1 with
            | none => r.2.2
            | some eid => appendToEntry r.2.2 eid body
  finishContentEntry c d1 paint.mode r.2.1

/-- One step of the finalization walk in `SkPDFDevice::content` (lines
1064-1075): diff clip, matrix and drawing state against the entry's captured
state, then copy the entry's buffered instructions. -/
def contentStep (tr : Int × Int) (s : GraphicStackState) (e : ContentEntry) :
    GraphicStackState :=
  (((s.updateClip e.fState.fClipStack e.fState.fClipRegion tr).updateMatrix
      e.fState.fMatrix).updateDrawingState e.fState).emitL e.fContent

/-- The whole entry-chain replay of `SkPDFDevice::content`, `drainStack`
included (lines 1064-1076). -/
def contentReplay (cs : ClipStack) (cr : SkRegion) (tr : Int × Int)
    (entries : List ContentEntry) : GraphicStackState :=
  (entries.foldl (contentStep tr) (GraphicStackState.start cs cr)).drainStack

/-- `n` nested `push` calls (for the stack-bound property). -/
def pushN : Nat → GraphicStackState → GraphicStackState
  | 0, s => s
  | n + 1, s => pushN n s.push

/-- Number of occurrences of one instruction token in a stream. -/
def countInstr (i : Instr) (l : List Instr) : Nat :=
  l.countP (fun x => decide (x = i))

/-- Number of clip operators (`W n` / `W* n`) in a stream: each `emit_clip`
call writes exactly one of them. -/
def countClipOps (l : List Instr) : Nat :=
  l.countP (fun x => decide (x = Instr.clipNonZero) || decide (x = Instr.clipEvenOdd))

/-- Intern a whole list of graphic-state objects in order, collecting the
returned indices. -/
def internAllGS (d : Device) : List Nat → List Int × Device
  | [] => ([], d)
  | g :: rest =>
      let r := addGraphicStateResource d g
      let rr := internAllGS r.2 rest
      (r.1 :: rr.1, rr.2)

/-- Intern a whole list of shader objects in order, collecting indices. -/
def internAllShaders (d : Device) : List Nat → List Int × Device
  | [] => ([], d)
  | ps :: rest =>
      let r := addShaderResource d ps
      let rr := internAllShaders r.2 rest
      (r.1 :: rr.1, rr.2)

/-- Intern a whole list of (typeface, glyph) pairs in order, collecting the
returned font indices. -/
def internAllFonts (c : Collab) (d : Device) : List (Nat × Nat) → List Int × Device
  | [] => ([], d)
  | fg :: rest =>
      let r := getFontResourceIndex c d fg.1 fg.2
      let rr := internAllFonts c r.2 rest
      (r.1 :: rr.1, rr.2)

/-- Register a whole list of XObjects in order, collecting the indices the
source would use (`count` just before each push). -/
def pushAllXObjects (d : Device) : List Nat → List Nat × Device
  | [] => ([], d)
  | x :: rest =>
      let r := pushXObject d x
      let rr := pushAllXObjects r.2 rest
      (r.1 :: rr.1, rr.2)

/-- A concrete collaborator assignment for witnesses: canonical ids chosen so
that paint graphic states, soft-mask states and the no-mask state are pairwise
distinct. -/
def cEx : Collab :=
  { getPDFShader := fun _ _ _ => none
    shaderAsColor := fun _ => none
    gsForPaint := fun _ => 5
    smaskGS := fun x b => 100 + 2 * x + (if b then 1 else 0)
    noSmaskGS := 99
    fontResource := fun t g => 1000 * t + g }

/-- A concrete nonempty clip region for witnesses. -/
def rEx : SkRegion := ⟨[⟨0, 0, 8, 8⟩]⟩

/-- A concrete intersect-rect clip element. -/
def elRect : ClipEl := { rect := some ⟨0, 0, 4, 4⟩, path := none, op := RegionOp.intersect }

/-- A concrete difference-op clip element (forces the region fallback). -/
def elDiff : ClipEl := { rect := some ⟨1, 1, 3, 3⟩, path := none, op := RegionOp.difference }

/-- A concrete intersect-path clip element with a non-inverse fill. -/
def elPath : ClipEl :=
  { rect := none, path := some ⟨FillType.evenOdd, [(0, 0), (4, 0), (0, 4)]⟩
    op := RegionOp.intersect }

/-- A concrete device with an empty content chain. -/
def dEx0 : Device :=
  { existingClipStack := [elRect]
    existingClipRegion := rEx
    initialTransform := SkMatrix.identity
    widthD := 8
    heightD := 8
    contentEntries := []
    lastContentEntry := none
    graphicStateResources := []
    xObjectResources := []
    fontResources := []
    shaderResources := []
    nextId := 0
  }

/-- A concrete captured state for the entry of `dEx1`. -/
def stEx : GraphicStateEntry :=
  { GraphicStateEntry.init with
      fClipStack := [elRect]
      fClipRegion := rEx
      fGraphicStateIndex := 0
      fTextScaleX := 0 }

/-- A concrete device whose chain holds one entry with a nonempty buffer. -/
def dEx1 : Device :=
  { dEx0 with
      contentEntries := [{ eid := 0, fState := stEx, fContent := [Instr.clipNonZero] }]
      lastContentEntry := some 0
      graphicStateResources := [5]
      nextId := 1 }

/-- A concrete paint with the destination-over transfer mode. -/
def paintDstOver : SkPaint := { SkPaint.stock with xfermode := some XferMode.dstOver }

/-- A concrete paint with the source-in transfer mode. -/
def paintSrcIn : SkPaint := { SkPaint.stock with xfermode := some XferMode.srcIn }

/-- The replay invariant of `content()`: at most three frames (depth ≤ 2),
every frame below the top carries the identity matrix, a full stack means the
top is a dirty-matrix frame, and at depth 0 the (base) frame is clean. -/
def gssInv (s : GraphicStackState) : Prop :=
  s.frames ≠ [] ∧ s.frames.length ≤ 3 ∧
  (∀ f ∈ s.frames.tail, f.fMatrix = SkMatrix.identity) ∧
  (s.frames.length = 3 → s.current.fMatrix ≠ SkMatrix.identity) ∧
  (s.frames.length = 1 → s.current.fMatrix = SkMatrix.identity)

/-- Two emitter states with the same per-frame matrices and assertion flag
(`updateDrawingState` never touches either). -/
def framesMatrixEq (x y : GraphicStackState) : Prop :=
  x.frames.map (fun e => e.fMatrix) = y.frames.map (fun e => e.fMatrix) ∧ x.ok = y.ok

/-- Device projections untouched by resource interning: everything except the
four resource tables. -/
def sameSkeleton (x y : Device) : Prop :=
  x.contentEntries = y.contentEntries ∧ x.lastContentEntry = y.lastContentEntry ∧
  x.nextId = y.nextId ∧ x.xObjectResources = y.xObjectResources ∧
  x.existingClipStack = y.existingClipStack ∧ x.existingClipRegion = y.existingClipRegion ∧
  x.initialTransform = y.initialTransform ∧ x.widthD = y.widthD ∧ x.heightD = y.heightD

/-! Helper lemmas. -/

theorem countInstr_replicate (i j : Instr) (n : Nat) :
    countInstr i (List.replicate n j) = if i = j then n else 0 := by
  induction n with
  | zero => simp [countInstr]
  | succ k ih =>
      rw [List.replicate_succ]
      unfold countInstr at ih ⊢
      rw [List.countP_cons, ih]
      by_cases h : i = j
      · subst h; simp
      · have h2 : ¬ j = i := fun hh => h hh.symm
        simp [h, h2]

theorem countInstr_append (i : Instr) (a b : List Instr) :
    countInstr i (a ++ b) = countInstr i a + countInstr i b := by
  simp [countInstr, List.countP_append]

theorem drainGo_spec (fr : List GraphicStateEntry) (st : List Instr) (ok : Bool)
    (h : fr ≠ []) :
    drainGo fr st ok =
      ⟨[fr.getLastD GraphicStateEntry.init],
       st ++ List.replicate (fr.length - 1) Instr.restore, ok⟩ := by
  induction fr generalizing st with
  | nil => exact absurd rfl h
  | cons a tl ih =>
      match tl with
      | [] => simp [drainGo]
      | b :: rest =>
          rw [drainGo, ih (st ++ [Instr.restore]) (by simp)]
          simp [List.getLastD_cons, List.replicate_succ, List.append_assoc]

theorem pushN_spec (n : Nat) (s : GraphicStackState) (hs : s.frames ≠ [])
    (hn : s.frames.length - 1 + n ≤ kMaxStackDepth) :
    (pushN n s).frames.length = s.frames.length + n ∧
    (pushN n s).stream = s.stream ++ List.replicate n Instr.save ∧
    (pushN n s).ok = s.ok ∧ (pushN n s).frames ≠ [] := by
  induction n generalizing s with
  | zero => simpa [pushN] using hs
  | succ k ih =>
      have hlen : s.push.frames.length = s.frames.length + 1 := by
        simp [GraphicStackState.push]
      have hne : s.push.frames ≠ [] := by simp [GraphicStackState.push]
      have hd : s.push.frames.length - 1 + k ≤ kMaxStackDepth := by
        rw [hlen]
        have : 1 ≤ s.frames.length := List.length_pos.mpr hs
        omega
      obtain ⟨h1, h2, h3, h4⟩ := ih s.push hne hd
      have hokp : s.push.ok = s.ok := by
        have hdep : s.depth < kMaxStackDepth := by
          have : 1 ≤ s.frames.length := List.length_pos.mpr hs
          unfold GraphicStackState.depth
          omega
        simp [GraphicStackState.push, hdep]
      refine ⟨by rw [pushN, h1, hlen]; omega, ?_, by rw [pushN, h3, hokp], by rw [pushN]; exact h4⟩
      rw [pushN, h2]
      simp [GraphicStackState.push, List.replicate_succ, List.append_assoc]

/-- C6: pushes and pops are balanced and bounded: `push` emits exactly one save
and increments the depth, `pop` emits exactly one restore and decrements it, a
run of `n ≤ kMaxStackDepth = 12` nested pushes from depth 0 reaches exactly
depth `n` with no depth assertion fired, and `drainStack` then pops every
remaining frame, returning to depth 0 with equally many saves and restores
emitted in total. -/
theorem c6_stack_balanced (s t s0 : GraphicStackState) (n : Nat)
    (hs : s.frames ≠ []) (_ht : 0 < t.depth) (h0 : s0.frames.length = 1)
    (hok : s0.ok = true) (hn : n ≤ kMaxStackDepth) :
    (s.push.stream = s.stream ++ [Instr.save] ∧ s.push.depth = s.depth + 1) ∧
    (t.pop.stream = t.stream ++ [Instr.restore] ∧ t.pop.depth = t.depth - 1) ∧
    ((pushN n s0).depth = n ∧ (pushN n s0).ok = true) ∧
    ((pushN n s0).drainStack.depth = 0 ∧ (pushN n s0).drainStack.ok = true ∧
     countInstr Instr.save ((pushN n s0).drainStack.stream.drop s0.stream.length) = n ∧
     countInstr Instr.restore ((pushN n s0).drainStack.stream.drop s0.stream.length) = n) := by
  have hs1 : 1 ≤ s.frames.length := List.length_pos.mpr hs
  have hps : (pushN n s0).frames.length = s0.frames.length + n ∧
      (pushN n s0).stream = s0.stream ++ List.replicate n Instr.save ∧
      (pushN n s0).ok = s0.ok ∧ (pushN n s0).frames ≠ [] :=
    pushN_spec n s0 (by intro hh; rw [hh] at h0; simp at h0) (by omega)
  obtain ⟨hl, hst, hko, hne⟩ := hps
  have hdrain := drainGo_spec (pushN n s0).frames (pushN n s0).stream (pushN n s0).ok hne
  constructor
  · exact ⟨by simp [GraphicStackState.push],
      by simp [GraphicStackState.push, GraphicStackState.depth]; omega⟩
  constructor
  · refine ⟨by simp [GraphicStackState.pop], ?_⟩
    simp [GraphicStackState.pop, GraphicStackState.depth]
  constructor
  · exact ⟨by simp [GraphicStackState.depth, hl, h0], by rw [hko, hok]⟩
  · unfold GraphicStackState.drainStack
    rw [hdrain]
    refine ⟨by simp [GraphicStackState.depth], by simpa [hko] using hok, ?_, ?_⟩ <;>
      simp [hst, hl, h0, List.append_assoc, List.drop_left, countInstr_append,
            countInstr_replicate]

/-- C7: `setUpContentEntry` is a successful no-op — it returns no entry and
leaves the device (chain, buffers, resources) untouched — both when the
requested clip region is empty (checked before any other work) and for the
destination transfer mode. -/
theorem c7_empty_and_dst_noop (c : Collab) (d : Device) (cso : Option ClipStack)
    (cr : SkRegion) (m : SkMatrix) (paint : SkPaint) (hasText : Bool)
    (h : cr.isEmptyR = true ∨ paint.mode = XferMode.dst) :
    setUpContentEntry c d cso cr m paint hasText = (none, none, d) := by
  rcases h with h | h
  · simp [setUpContentEntry, h]
  · by_cases hcr : cr.isEmptyR <;> simp [setUpContentEntry, hcr, h]

/-- Witness for C7 at a concrete destination-mode draw. -/
theorem c7_witness :
    setUpContentEntry cEx dEx0 none rEx SkMatrix.identity
      { SkPaint.stock with xfermode := some XferMode.dst } false = (none, none, dEx0) :=
  c7_empty_and_dst_noop cEx dEx0 none rEx SkMatrix.identity
    { SkPaint.stock with xfermode := some XferMode.dst } false (Or.inr rfl)

theorem setCur_current (s : GraphicStackState) (f : GraphicStateEntry → GraphicStateEntry)
    (hne : s.frames ≠ []) : (s.setCur f).current = f s.current := by
  rcases h : s.frames with _ | ⟨a, tl⟩
  · exact absurd h hne
  · simp [GraphicStackState.setCur, GraphicStackState.current, h]

theorem popLoopGo_true_current (cs : ClipStack) (fr : List GraphicStateEntry)
    (st : List Instr) (ok : Bool) (h : (popLoopGo cs fr st ok).2 = true) :
    ((popLoopGo cs fr st ok).1).current.fClipStack = cs := by
  induction fr generalizing st with
  | nil => simp [popLoopGo] at h
  | cons a tl ih =>
      match tl with
      | [] => simp [popLoopGo] at h
      | b :: rest =>
          rw [popLoopGo] at h ⊢
          by_cases hb : b.fClipStack = cs
      
          · simp [hb, GraphicStackState.current]
          · simp only [hb, if_neg, ite_false] at h ⊢
            exact ih (st ++ [Instr.restore]) h

theorem popLoopGo_noMatch (cs : ClipStack) (fr : List GraphicStateEntry)
    (st : List Instr) (ok : Bool) (hne : fr ≠ [])
    (hall : ∀ f ∈ fr, f.fClipStack ≠ cs) :
    popLoopGo cs fr st ok =
      (⟨[fr.getLastD GraphicStateEntry.init],
        st ++ List.replicate (fr.length - 1) Instr.restore, ok⟩, false) := by
  induction fr generalizing st with
  | nil => exact absurd rfl hne
  | cons a tl ih =>
      match tl with
      | [] => simp [popLoopGo]
      | b :: rest =>
          rw [popLoopGo]
          have hb : ¬ b.fClipStack = cs := hall b (by simp)
          simp only [hb, ite_false]
          rw [ih (st ++ [Instr.restore]) (by simp) (fun f hf => hall f (by simp [hf]))]
          simp [List.getLastD_cons, List.replicate_succ, List.append_assoc]

theorem updateClip_noop (s : GraphicStackState) (cs : ClipStack) (cr : SkRegion)
    (tr : Int × Int) (h : s.current.fClipStack = cs) :
    s.updateClip cs cr tr = s := by
  rw [GraphicStackState.updateClip, if_pos h.symm]

theorem updateClip_sets_current (s : GraphicStackState) (cs : ClipStack)
    (cr : SkRegion) (tr : Int × Int) :
    (s.updateClip cs cr tr).current.fClipStack = cs := by
  rw [GraphicStackState.updateClip]
  by_cases h0 : cs = s.current.fClipStack
  · simp [h0]
  · simp only [h0, ite_false]
    rcases hpl : popLoopGo cs s.frames s.stream s.ok with ⟨s1, matched⟩
    cases matched
    · simp only []
      split
      · rw [setCur_current]
        simp [GraphicStackState.push, GraphicStackState.emitL]
      · rw [setCur_current]
        simp [GraphicStackState.push, GraphicStackState.emitL]
    · have := popLoopGo_true_current cs s.frames s.stream s.ok (by rw [hpl])
      rw [hpl] at this
      simpa using this

theorem updateMatrix_noop (s : GraphicStackState) (m : SkMatrix)
    (h : s.current.fMatrix = m) : s.updateMatrix m = s := by
  rw [GraphicStackState.updateMatrix, if_pos h.symm]

theorem updateMatrix_sets_current (s : GraphicStackState) (m : SkMatrix)
    (h2 : s.current.fMatrix ≠ SkMatrix.identity →
          (s.frames.tail.headD GraphicStateEntry.init).fMatrix = SkMatrix.identity) :
    (s.updateMatrix m).current.fMatrix = m := by
  rw [GraphicStackState.updateMatrix]
  by_cases h0 : m = s.current.fMatrix
  · simp [h0]
  · simp only [h0, ite_false]
    by_cases hid : s.current.fMatrix = SkMatrix.identity
    · simp only [hid, ite_true]
      by_cases hm : m = SkMatrix.identity
      · simp [hm, hid]
      · simp only [hm, ite_false]
        rw [setCur_current]
        simp [GraphicStackState.push, GraphicStackState.emitL]
    · simp only [hid, ite_false]
      by_cases hm : m = SkMatrix.identity
      · simp only [hm, ite_true]
        simpa [GraphicStackState.pop, GraphicStackState.current] using h2 hid
      · simp only [hm, ite_false]
        rw [setCur_current]
        simp [GraphicStackState.push, GraphicStackState.emitL]

/-- The cached-value facts that make a second identical `updateDrawingState`
call a no-op. -/
def udsReady (u : GraphicStackState) (st : GraphicStateEntry) : Prop :=
  (0 ≤ st.fShaderIndex → u.current.fShaderIndex = st.fShaderIndex) ∧
  (st.fShaderIndex < 0 → u.current.fColor = st.fColor ∧ u.current.fShaderIndex < 0) ∧
  u.current.fGraphicStateIndex = st.fGraphicStateIndex ∧
  (st.fTextScaleX ≠ 0 → u.current.fTextScaleX = st.fTextScaleX ∧
    u.current.fTextFill = st.fTextFill)

theorem udsFill_facts (s : GraphicStackState) (st : GraphicStateEntry)
    (hne : s.frames ≠ []) :
    (udsFill s st).frames ≠ [] ∧
    (0 ≤ st.fShaderIndex → (udsFill s st).current.fShaderIndex = st.fShaderIndex) ∧
    (st.fShaderIndex < 0 → (udsFill s st).current.fColor = st.fColor ∧
      (udsFill s st).current.fShaderIndex < 0) ∧
    (udsFill s st).current.fGraphicStateIndex = s.current.fGraphicStateIndex ∧
    (udsFill s st).current.fTextScaleX = s.current.fTextScaleX ∧
    (udsFill s st).current.fTextFill = s.current.fTextFill := by
  rcases hfr : s.frames with _ | ⟨a, tl⟩
  · exact absurd hfr hne
  · have hcur : s.current = a := by simp [GraphicStackState.current, hfr]
    unfold udsFill
    rw [hcur]
    split_ifs with h1 h2 h3
    · refine ⟨by simp [GraphicStackState.setCur, GraphicStackState.emitL, hfr], ?_, ?_, ?_, ?_, ?_⟩ <;>
        simp [GraphicStackState.setCur, GraphicStackState.emitL,
          GraphicStackState.current, hfr, hcur]
      intro h
      exact absurd h (by omega)
    · have he : st.fShaderIndex = a.fShaderIndex := not_ne_iff.mp h2
      refine ⟨by simp [hfr], ?_, ?_, by rw [hcur], by rw [hcur], by rw [hcur]⟩
      · intro _
        rw [hcur, he]
      · intro h
        exact absurd h (by omega)
    · refine ⟨by simp [GraphicStackState.setCur, GraphicStackState.emitL, hfr], ?_, ?_, ?_, ?_, ?_⟩ <;>
        simp [GraphicStackState.setCur, GraphicStackState.emitL,
          GraphicStackState.current, hfr, hcur]
      intro h
      exact absurd h h1
    · simp only [Bool.or_eq_true, decide_eq_true_eq, not_or, not_le] at h3
      obtain ⟨h3a, h3b⟩ := h3
      rw [not_not] at h3a
      refine ⟨by simp [hfr], ?_, ?_, by rw [hcur], by rw [hcur], by rw [hcur]⟩
      · intro h
        exact absurd h h1
      · intro _
        rw [hcur]
        exact ⟨h3a.symm, h3b⟩

theorem udsGS_facts (s : GraphicStackState) (st : GraphicStateEntry)
    (hne : s.frames ≠ []) :
    (udsGS s st).frames ≠ [] ∧
    (udsGS s st).current.fGraphicStateIndex = st.fGraphicStateIndex ∧
    (udsGS s st).current.fShaderIndex = s.current.fShaderIndex ∧
    (udsGS s st).current.fColor = s.current.fColor ∧
    (udsGS s st).current.fTextScaleX = s.current.fTextScaleX ∧
    (udsGS s st).current.fTextFill = s.current.fTextFill := by
  rcases hfr : s.frames with _ | ⟨a, tl⟩
  · exact absurd hfr hne
  · have hcur : s.current = a := by simp [GraphicStackState.current, hfr]
    unfold udsGS
    rw [hcur]
    split_ifs with h1
    · refine ⟨by simp [GraphicStackState.setCur, GraphicStackState.emitL, hfr], ?_, ?_, ?_, ?_, ?_⟩ <;>
        simp [GraphicStackState.setCur, GraphicStackState.emitL,
          GraphicStackState.current, hfr, hcur]
    · have he : st.fGraphicStateIndex = a.fGraphicStateIndex := not_ne_iff.mp h1
      exact ⟨by simp [hfr], by rw [hcur, he], by rw [hcur], by rw [hcur], by rw [hcur], by rw [hcur]⟩

theorem udsTextScale_facts (s : GraphicStackState) (st : GraphicStateEntry)
    (hne : s.frames ≠ []) :
    (udsTextScale s st).frames ≠ [] ∧
    (udsTextScale s st).current.fTextScaleX = st.fTextScaleX ∧
    (udsTextScale s st).current.fShaderIndex = s.current.fShaderIndex ∧
    (udsTextScale s st).current.fColor = s.current.fColor ∧
    (udsTextScale s st).current.fTextFill = s.current.fTextFill ∧
    (udsTextScale s st).current.fGraphicStateIndex = s.current.fGraphicStateIndex := by
  rcases hfr : s.frames with _ | ⟨a, tl⟩
  · exact absurd hfr hne
  · have hcur : s.current = a := by simp [GraphicStackState.current, hfr]
    unfold udsTextScale
    rw [hcur]
    split_ifs with h1
    · refine ⟨by simp [GraphicStackState.setCur, GraphicStackState.emitL, hfr], ?_, ?_, ?_, ?_, ?_⟩ <;>
        simp [GraphicStackState.setCur, GraphicStackState.emitL,
          GraphicStackState.current, hfr, hcur]
    · have he : st.fTextScaleX = a.fTextScaleX := not_ne_iff.mp h1
      exact ⟨by simp [hfr], by rw [hcur, he], by rw [hcur], by rw [hcur], by rw [hcur], by rw [hcur]⟩

theorem udsTextFill_facts (s : GraphicStackState) (st : GraphicStateEntry)
    (hne : s.frames ≠ []) :
    (udsTextFill s st).frames ≠ [] ∧
    (udsTextFill s st).current.fTextFill = st.fTextFill ∧
    (udsTextFill s st).current.fShaderIndex = s.current.fShaderIndex ∧
    (udsTextFill s st).current.fColor = s.current.fColor ∧
    (udsTextFill s st).current.fTextScaleX = s.current.fTextScaleX ∧
    (udsTextFill s st).current.fGraphicStateIndex = s.current.fGraphicStateIndex := by
  rcases hfr : s.frames with _ | ⟨a, tl⟩
  · exact absurd hfr hne
  · have hcur : s.current = a := by simp [GraphicStackState.current, hfr]
    unfold udsTextFill
    rw [hcur]
    split_ifs with h1
    · refine ⟨by simp [GraphicStackState.setCur, GraphicStackState.emitL, hfr], ?_, ?_, ?_, ?_, ?_⟩ <;>
        simp [GraphicStackState.setCur, GraphicStackState.emitL,
          GraphicStackState.current, hfr, hcur]
    · have he : st.fTextFill = a.fTextFill := not_ne_iff.mp h1
      exact ⟨by simp [hfr], by rw [hcur, he], by rw [hcur], by rw [hcur], by rw [hcur], by rw [hcur]⟩

theorem udsText_facts (s : GraphicStackState) (st : GraphicStateEntry)
    (hne : s.frames ≠ []) :
    (udsText s st).frames ≠ [] ∧
    (st.fTextScaleX ≠ 0 → (udsText s st).current.fTextScaleX = st.fTextScaleX ∧
      (udsText s st).current.fTextFill = st.fTextFill) ∧
    (udsText s st).current.fShaderIndex = s.current.fShaderIndex ∧
    (udsText s st).current.fColor = s.current.fColor ∧
    (udsText s st).current.fGraphicStateIndex = s.current.fGraphicStateIndex := by
  unfold udsText
  split_ifs with h1
  · obtain ⟨hs1, hs2, hs3, hs4, hs5, hs6⟩ := udsTextScale_facts s st hne
    obtain ⟨hf1, hf2, hf3, hf4, hf5, hf6⟩ := udsTextFill_facts (udsTextScale s st) st hs1
    exact ⟨hf1, fun _ => ⟨by rw [hf5, hs2], hf2⟩, by rw [hf3, hs3],
      by rw [hf4, hs4], by rw [hf6, hs6]⟩
  · exact ⟨hne, fun h => absurd h h1, rfl, rfl, rfl⟩

theorem updateDrawingState_ready (s : GraphicStackState) (st : GraphicStateEntry)
    (hne : s.frames ≠ []) : udsReady (s.updateDrawingState st) st := by
  obtain ⟨hf1, hf2, hf3, hf4, hf5, hf6⟩ := udsFill_facts s st hne
  obtain ⟨hg1, hg2, hg3, hg4, hg5, hg6⟩ := udsGS_facts (udsFill s st) st hf1
  obtain ⟨ht1, ht2, ht3, ht4, ht5⟩ := udsText_facts (udsGS (udsFill s st) st) st hg1
  unfold GraphicStackState.updateDrawingState udsReady
  refine ⟨?_, ?_, ?_, ht2⟩
  · intro h
    rw [ht3, hg3]
    exact hf2 h
  · intro h
    rw [ht4, hg4, ht3, hg3]
    exact hf3 h
  · rw [ht5, hg2]

theorem udsFill_noop (u : GraphicStackState) (st : GraphicStateEntry)
    (h1 : 0 ≤ st.fShaderIndex → u.current.fShaderIndex = st.fShaderIndex)
    (h2 : st.fShaderIndex < 0 → u.current.fColor = st.fColor ∧
      u.current.fShaderIndex < 0) : udsFill u st = u := by
  unfold udsFill
  by_cases c1 : 0 ≤ st.fShaderIndex
  · simp [c1, h1 c1]
  · have hlt : st.fShaderIndex < 0 := by omega
    obtain ⟨e1, e2⟩ := h2 hlt
    simp [c1, e1, not_le.mpr e2]

theorem udsGS_noop (u : GraphicStackState) (st : GraphicStateEntry)
    (h : u.current.fGraphicStateIndex = st.fGraphicStateIndex) : udsGS u st = u := by
  unfold udsGS
  simp [h]

theorem udsTextScale_noop (u : GraphicStackState) (st : GraphicStateEntry)
    (h : u.current.fTextScaleX = st.fTextScaleX) : udsTextScale u st = u := by
  unfold udsTextScale
  simp [h]

theorem udsTextFill_noop (u : GraphicStackState) (st : GraphicStateEntry)
    (h : u.current.fTextFill = st.fTextFill) : udsTextFill u st = u := by
  unfold udsTextFill
  simp [h]

theorem udsText_noop (u : GraphicStackState) (st : GraphicStateEntry)
    (h : st.fTextScaleX ≠ 0 → u.current.fTextScaleX = st.fTextScaleX ∧
      u.current.fTextFill = st.fTextFill) : udsText u st = u := by
  unfold udsText
  split_ifs with c6
  · obtain ⟨e1, e2⟩ := h c6
    rw [udsTextScale_noop u st e1, udsTextFill_noop u st e2]
  · rfl

theorem updateDrawingState_noop (u : GraphicStackState) (st : GraphicStateEntry)
    (h : udsReady u st) : u.updateDrawingState st = u := by
  obtain ⟨h1, h2, h3, h4⟩ := h
  unfold GraphicStackState.updateDrawingState
  rw [udsFill_noop u st h1 h2, udsGS_noop u st h3, udsText_noop u st h4]

/-- C5: each of `updateClip`, `updateMatrix` and `updateDrawingState` is
idempotent on the output stream: repeating a call with the target just applied
returns the state unchanged (in particular zero additional instructions are
emitted), because each compares the target against the current frame's cached
value and skips emission on equality.  For `updateMatrix` the hypothesis is the
invariant the source itself asserts after its pop (line 348): the frame under a
dirty top frame carries the identity matrix. -/
theorem c5_update_idempotent (s1 : GraphicStackState) (cs : ClipStack)
    (cr : SkRegion) (tr : Int × Int) (s2 : GraphicStackState) (m : SkMatrix)
    (s3 : GraphicStackState) (st : GraphicStateEntry)
    (h2 : s2.current.fMatrix ≠ SkMatrix.identity →
          (s2.frames.tail.headD GraphicStateEntry.init).fMatrix = SkMatrix.identity)
    (h3 : s3.frames ≠ []) :
    ((s1.updateClip cs cr tr).updateClip cs cr tr = s1.updateClip cs cr tr) ∧
    ((s2.updateMatrix m).updateMatrix m = s2.updateMatrix m) ∧
    ((s3.updateDrawingState st).updateDrawingState st = s3.updateDrawingState st) :=
  ⟨updateClip_noop _ cs cr tr (updateClip_sets_current s1 cs cr tr),
   updateMatrix_noop _ m (updateMatrix_sets_current s2 m h2),
   updateDrawingState_noop _ st (updateDrawingState_ready s3 st h3)⟩

/-- Witness for C5 at concrete states and targets. -/
theorem c5_witness :
    (((GraphicStackState.start [elRect] rEx).updateClip [elRect, elPath] rEx
        (0, 0)).updateClip [elRect, elPath] rEx (0, 0)
      = (GraphicStackState.start [elRect] rEx).updateClip [elRect, elPath] rEx (0, 0)) ∧
    (((GraphicStackState.start [elRect] rEx).updateMatrix (SkMatrix.setTranslate 1 2)).updateMatrix
        (SkMatrix.setTranslate 1 2)
      = (GraphicStackState.start [elRect] rEx).updateMatrix (SkMatrix.setTranslate 1 2)) ∧
    (((GraphicStackState.start [elRect] rEx).updateDrawingState stEx).updateDrawingState stEx
      = (GraphicStackState.start [elRect] rEx).updateDrawingState stEx) :=
  c5_update_idempotent (GraphicStackState.start [elRect] rEx) [elRect, elPath] rEx (0, 0)
    (GraphicStackState.start [elRect] rEx) (SkMatrix.setTranslate 1 2)
    (GraphicStackState.start [elRect] rEx) stEx (by decide) (by decide)

/-- Witness for C6 at concrete states: three nested pushes from depth 0. -/
theorem c6_witness :
    (pushN 3 (GraphicStackState.start [elRect] rEx)).depth = 3 ∧
    (pushN 3 (GraphicStackState.start [elRect] rEx)).drainStack.depth = 0 ∧
    (pushN 3 (GraphicStackState.start [elRect] rEx)).drainStack.ok = true :=
  let h := c6_stack_balanced (GraphicStackState.start [elRect] rEx)
    ((GraphicStackState.start [elRect] rEx).push) (GraphicStackState.start [elRect] rEx) 3
    (by decide) (by decide) (by decide) (by decide) (by decide)
  ⟨h.2.2.1.1, h.2.2.2.1, h.2.2.2.2.1⟩

/-- C4: `updateClip` never re-emits the inherited base clip of frame 0: a
target equal to the current frame's clip stack emits nothing, and a target
extending the inherited stack by two intersect elements `b`, `c2` emits exactly
those two elements (rects mapped by the origin-shift translation, paths
transformed by it) after the single save — nothing for the inherited prefix. -/
theorem c4_prefix_skip (s : GraphicStackState) (cr : SkRegion) (tr : Int × Int)
    (f0 : GraphicStateEntry) (b c2 : ClipEl) (cr2 : SkRegion)
    (hfr : s.frames = [f0])
    (hb1 : b.op = RegionOp.intersect)
    (hb2 : ∀ p, b.path = some p → p.isInverseFillType = false)
    (hc1 : c2.op = RegionOp.intersect)
    (hc2 : ∀ p, c2.path = some p → p.isInverseFillType = false) :
    (s.updateClip s.current.fClipStack cr tr = s) ∧
    ((s.updateClip (f0.fClipStack ++ [b, c2]) cr2 tr).stream
      = s.stream ++ [Instr.save]
          ++ emitClipEl (SkMatrix.setTranslate (tr.1 : Rat) (tr.2 : Rat)) b
          ++ emitClipEl (SkMatrix.setTranslate (tr.1 : Rat) (tr.2 : Rat)) c2) := by
  have hcur : s.current = f0 := by simp [GraphicStackState.current, hfr]
  constructor
  · exact updateClip_noop s s.current.fClipStack cr tr rfl
  · have hneq : f0.fClipStack ++ [b, c2] ≠ s.current.fClipStack := by
      rw [hcur]
      intro h
      have := congrArg List.length h
      simp at this
    rw [GraphicStackState.updateClip, if_neg (by exact hneq)]
    have hpl : popLoopGo (f0.fClipStack ++ [b, c2]) s.frames s.stream s.ok
        = (⟨[f0], s.stream, s.ok⟩, false) := by
      rw [hfr]
      rfl
    rw [hpl]
    simp only []
    have hpush : (GraphicStackState.mk [f0] s.stream s.ok).push
        = ⟨[f0, f0], s.stream ++ [Instr.save], s.ok⟩ := by
      simp [GraphicStackState.push, GraphicStackState.current, GraphicStackState.depth,
        kMaxStackDepth]
    rw [hpush]
    have hsuf : clipStackSuffix
        (GraphicStackState.mk [f0, f0] (s.stream ++ [Instr.save]) s.ok).frame0.fClipStack
        (f0.fClipStack ++ [b, c2]) = [b, c2] := by
      simp [GraphicStackState.frame0, clipStackSuffix, List.getLastD]
    rw [hsuf]
    have hreg : needRegionB [b, c2] = false := by
      rcases hbp : b.path with _ | pb <;> rcases hcp : c2.path with _ | pc <;>
        simp [needRegionB, hb1, hc1, hbp, hcp] <;>
      first
      | exact hc2 pc hcp
      | exact hb2 pb hbp
      | exact ⟨hb2 pb hbp, hc2 pc hcp⟩
    rw [hreg]
    simp [GraphicStackState.setCur, GraphicStackState.emitL, List.append_assoc]

/-- Witness for C4 at a concrete single-frame state and two intersect steps. -/
theorem c4_witness :
    ((GraphicStackState.start [elRect] rEx).updateClip
        (GraphicStackState.start [elRect] rEx).current.fClipStack rEx (0, 0)
      = GraphicStackState.start [elRect] rEx) ∧
    (((GraphicStackState.start [elRect] rEx).updateClip
        ([elRect] ++ [elRect, elPath]) rEx (3, 4)).stream
      = [] ++ [Instr.save]
          ++ emitClipEl (SkMatrix.setTranslate ((3 : Int) : Rat) ((4 : Int) : Rat)) elRect
          ++ emitClipEl (SkMatrix.setTranslate ((3 : Int) : Rat) ((4 : Int) : Rat)) elPath) := by
  have h := c4_prefix_skip (GraphicStackState.start [elRect] rEx) rEx (3, 4)
    { GraphicStateEntry.init with fClipStack := [elRect], fClipRegion := rEx }
    elRect elPath rEx rfl (by decide) (by intro p hp; cases hp)
    (by decide) (by intro p hp; cases hp; decide)
  exact ⟨updateClip_noop _ _ _ _ rfl, h.2⟩

theorem countClipOps_replicate (n : Nat) (i : Instr) (h1 : i ≠ Instr.clipNonZero)
    (h2 : i ≠ Instr.clipEvenOdd) : countClipOps (List.replicate n i) = 0 := by
  induction n with
  | zero => simp [countClipOps]
  | succ k ih =>
      rw [List.replicate_succ]
      unfold countClipOps at ih ⊢
      rw [List.countP_cons, ih]
      simp [h1, h2]

/-- C3: when the suffix of the target clip stack beyond the inherited prefix
contains a non-intersect op or an inverse-filled path element, and the target
matches no cached frame (so emission happens), `updateClip` emits exactly one
clip instruction, built from the resolved clip region's boundary path, and no
per-element clip instructions for the suffix: after the pops and the single
save, the appended stream is exactly the boundary-path clip. -/
theorem c3_region_fallback (s : GraphicStackState) (cs : ClipStack) (cr : SkRegion)
    (tr : Int × Int) (hne : s.frames ≠ [])
    (hall : ∀ f ∈ s.frames, f.fClipStack ≠ cs)
    (hreg : needRegionB (clipStackSuffix s.frame0.fClipStack cs) = true) :
    (s.updateClip cs cr tr).stream
      = s.stream ++ List.replicate s.depth Instr.restore
          ++ [Instr.save, Instr.pathData cr.getBoundaryPath, Instr.clipNonZero] ∧
    countClipOps ((s.updateClip cs cr tr).stream.drop s.stream.length) = 1 := by
  have hcur : s.current ∈ s.frames := by
    rcases h : s.frames with _ | ⟨a, tl⟩
    · exact absurd h hne
    · simp [GraphicStackState.current, h]
  have hg : s.frames.getLastD GraphicStateEntry.init = s.frame0 := rfl
  have hstream : (s.updateClip cs cr tr).stream
      = s.stream ++ List.replicate s.depth Instr.restore
          ++ [Instr.save, Instr.pathData cr.getBoundaryPath, Instr.clipNonZero] := by
    rw [GraphicStackState.updateClip,
      if_neg (fun h => hall s.current hcur h.symm),
      popLoopGo_noMatch cs s.frames s.stream s.ok hne hall]
    simp only []
    have hpush : (GraphicStackState.mk [s.frames.getLastD GraphicStateEntry.init]
        (s.stream ++ List.replicate (s.frames.length - 1) Instr.restore) s.ok).push
        = ⟨[s.frame0, s.frame0],
           s.stream ++ List.replicate (s.frames.length - 1) Instr.restore ++ [Instr.save],
           s.ok⟩ := by
      simp [GraphicStackState.push, GraphicStackState.current, GraphicStackState.depth,
        kMaxStackDepth, hg]
      rw [List.getLastD_eq_getLast?] at hg
      exact hg
    rw [hpush]
    have hf0 : (GraphicStackState.mk [s.frame0, s.frame0]
        (s.stream ++ List.replicate (s.frames.length - 1) Instr.restore ++ [Instr.save])
        s.ok).frame0 = s.frame0 := by
      simp [GraphicStackState.frame0, List.getLastD]
    rw [hf0, hreg]
    simp [GraphicStackState.setCur, GraphicStackState.emitL, emitClipInstrs,
      SkRegion.getBoundaryPath, GraphicStackState.depth, List.append_assoc]
  refine ⟨hstream, ?_⟩
  rw [hstream, List.append_assoc, List.drop_left]
  unfold countClipOps
  rw [List.countP_append]
  have hrep := countClipOps_replicate s.depth Instr.restore (by simp) (by simp)
  unfold countClipOps at hrep
  rw [hrep]
  simp [List.countP_cons]

/-- Witness for C3: one difference-op step beyond the inherited prefix. -/
theorem c3_witness :
    ((GraphicStackState.start [elRect] rEx).updateClip [elRect, elDiff] rEx (0, 0)).stream
      = [] ++ List.replicate 0 Instr.restore
          ++ [Instr.save, Instr.pathData rEx.getBoundaryPath, Instr.clipNonZero] ∧
    countClipOps (((GraphicStackState.start [elRect] rEx).updateClip
        [elRect, elDiff] rEx (0, 0)).stream.drop ([] : List Instr).length) = 1 :=
  c3_region_fallback (GraphicStackState.start [elRect] rEx) [elRect, elDiff] rEx (0, 0)
    (by decide) (by decide) (by decide)

theorem popLoopGo_true_spec (cs : ClipStack) (fr : List GraphicStateEntry)
    (st : List Instr) (ok : Bool) (h : (popLoopGo cs fr st ok).2 = true) :
    ∃ k, 1 ≤ k ∧ k < fr.length ∧
      (popLoopGo cs fr st ok).1.frames = fr.drop k ∧
      (popLoopGo cs fr st ok).1.ok = ok := by
  induction fr generalizing st with
  | nil => simp [popLoopGo] at h
  | cons a tl ih =>
      match tl with
      | [] => simp [popLoopGo] at h
      | b :: rest =>
          rw [popLoopGo] at h ⊢
          by_cases hb : b.fClipStack = cs
          · refine ⟨1, le_refl 1, by simp, ?_, ?_⟩ <;> simp [hb]
          · simp only [hb, ite_false] at h ⊢
            obtain ⟨k, hk1, hk2, hk3, hk4⟩ := ih (st ++ [Instr.restore]) h
            refine ⟨k + 1, by omega, by simp at hk2 ⊢; omega, ?_, hk4⟩
            rw [hk3]
            rfl

theorem popLoopGo_false_spec (cs : ClipStack) (fr : List GraphicStateEntry)
    (st : List Instr) (ok : Bool) (hne : fr ≠ [])
    (h : (popLoopGo cs fr st ok).2 = false) :
    (popLoopGo cs fr st ok).1.frames = [fr.getLastD GraphicStateEntry.init] ∧
    (popLoopGo cs fr st ok).1.ok = ok := by
  induction fr generalizing st with
  | nil => exact absurd rfl hne
  | cons a tl ih =>
      match tl with
      | [] => simp [popLoopGo]
      | b :: rest =>
          rw [popLoopGo] at h ⊢
          by_cases hb : b.fClipStack = cs
          · simp [hb] at h
          · simp only [hb, ite_false] at h ⊢
            obtain ⟨hk1, hk2⟩ := ih (st ++ [Instr.restore]) (by simp) h
            exact ⟨by rw [hk1]; simp [List.getLastD_cons], hk2⟩

theorem getLastD_mem_of_ne (l : List GraphicStateEntry) (d : GraphicStateEntry)
    (h : l ≠ []) : l.getLastD d ∈ l := by
  induction l generalizing d with
  | nil => exact absurd rfl h
  | cons a tl ih =>
      match tl with
      | [] => simp [List.getLastD]
      | b :: rest =>
          rw [List.getLastD_cons]
          exact List.mem_cons_of_mem a (ih a (by simp))

theorem getLastD_ident (s : GraphicStackState) (hinv : gssInv s) :
    (s.frames.getLastD GraphicStateEntry.init).fMatrix = SkMatrix.identity := by
  obtain ⟨h1, h2, h3, h4, h5⟩ := hinv
  rcases hfr : s.frames with _ | ⟨a, tl⟩
  · exact absurd hfr h1
  · match htl : tl with
    | [] =>
        have hcur : s.current = a := by simp [GraphicStackState.current, hfr]
        have hone := h5 (by rw [hfr]; rfl)
        rw [hcur] at hone
        simpa [List.getLastD] using hone
    | b :: rest =>
        rw [List.getLastD_cons]
        refine h3 _ ?_
        rw [hfr]
        exact getLastD_mem_of_ne (b :: rest) a (by simp)

theorem updateClip_inv (s : GraphicStackState) (cs : ClipStack) (cr : SkRegion)
    (tr : Int × Int) (hinv : gssInv s) :
    gssInv (s.updateClip cs cr tr) ∧ (s.updateClip cs cr tr).ok = s.ok := by
  have hgl := getLastD_ident s hinv
  obtain ⟨h1, h2, h3, h4, h5⟩ := hinv
  rw [GraphicStackState.updateClip]
  by_cases h0 : cs = s.current.fClipStack
  · simp only [h0, ite_true]
    exact ⟨⟨h1, h2, h3, h4, h5⟩, by trivial⟩
  · simp only [h0, ite_false]
    rcases hpl : popLoopGo cs s.frames s.stream s.ok with ⟨s1, matched⟩
    cases matched
    · obtain ⟨hf, hok⟩ := popLoopGo_false_spec cs s.frames s.stream s.ok h1 (by rw [hpl])
      rw [hpl] at hf hok
      simp only [] at hf hok ⊢
      have hcur1 : s1.current = s.frames.getLastD GraphicStateEntry.init := by
        simp [GraphicStackState.current, hf]
      have hdep : s1.depth = 0 := by simp [GraphicStackState.depth, hf]
      constructor
      · constructor
        · split <;> simp [GraphicStackState.setCur, GraphicStackState.emitL,
            GraphicStackState.push, hf]
        constructor
        · split <;> simp [GraphicStackState.setCur, GraphicStackState.emitL,
            GraphicStackState.push, hf]
        constructor
        · intro f hfm
          have : f = s.frames.getLastD GraphicStateEntry.init := by
            revert hfm
            split <;>
              simp [GraphicStackState.setCur, GraphicStackState.emitL,
                GraphicStackState.push, hf, hcur1]
          rw [this]
          exact hgl
        constructor
        · intro hlen
          revert hlen
          split <;>
            simp [GraphicStackState.setCur, GraphicStackState.emitL,
              GraphicStackState.push, hf]
        · intro hlen
          revert hlen
          split <;>
            simp [GraphicStackState.setCur, GraphicStackState.emitL,
              GraphicStackState.push, hf]
      · split <;>
          simp [GraphicStackState.setCur, GraphicStackState.emitL,
            GraphicStackState.push, hdep, hok, kMaxStackDepth]
    · obtain ⟨k, hk1, hk2, hf, hok⟩ := popLoopGo_true_spec cs s.frames s.stream s.ok (by rw [hpl])
      rw [hpl] at hf hok
      simp only [] at hf hok ⊢
      have hsub : ∀ f ∈ s1.frames, f ∈ s.frames.tail := by
        intro f hfm
        rw [hf] at hfm
        rcases hfr : s.frames with _ | ⟨a, tl⟩
        · rw [hfr] at hfm; simp at hfm
        · rw [hfr] at hfm
          match k, hk1 with
          | k' + 1, _ =>
              simp only [List.drop_succ_cons] at hfm
              simpa [hfr] using List.mem_of_mem_drop hfm
      refine ⟨⟨?_, ?_, ?_, ?_, ?_⟩, hok⟩
      · rw [hf]
        intro hcon
        have := congrArg List.length hcon
        rw [List.length_drop] at this
        simp at this
        omega
      · rw [hf, List.length_drop]
        omega
      · intro f hfm
        refine h3 f (hsub f (List.mem_of_mem_tail hfm))
      · intro hlen
        rw [hf, List.length_drop] at hlen
        omega
      · intro _
        have hcur : s1.current ∈ s1.frames := by
          rcases hfr1 : s1.frames with _ | ⟨a, tl⟩
          · exfalso
            rw [hf] at hfr1
            have := congrArg List.length hfr1
            rw [List.length_drop] at this
            simp at this
            omega
          · simp [GraphicStackState.current, hfr1]
        exact h3 _ (hsub _ hcur)

theorem updateMatrix_inv (s : GraphicStackState) (m : SkMatrix) (hinv : gssInv s) :
    gssInv (s.updateMatrix m) ∧ (s.updateMatrix m).ok = s.ok := by
  obtain ⟨h1, h2, h3, h4, h5⟩ := hinv
  rw [GraphicStackState.updateMatrix]
  by_cases h0 : m = s.current.fMatrix
  · simp only [h0, ite_true]
    exact ⟨⟨h1, h2, h3, h4, h5⟩, by trivial⟩
  · simp only [h0, ite_false]
    by_cases hid : s.current.fMatrix = SkMatrix.identity
    · simp only [hid, ite_true]
      by_cases hm : m = SkMatrix.identity
      · simp only [hm, ite_true]
        exact ⟨⟨h1, h2, h3, h4, h5⟩, by trivial⟩
      · simp only [hm, ite_false]
        rcases hfr : s.frames with _ | ⟨a, tl⟩
        · exact absurd hfr h1
        · have hlen : s.frames.length ≤ 2 := by
            by_contra hc
            have l3 : s.frames.length = 3 := by omega
            exact h4 l3 hid
          have hcur : s.current = a := by simp [GraphicStackState.current, hfr]
          refine ⟨⟨?_, ?_, ?_, ?_, ?_⟩, ?_⟩
          · simp [GraphicStackState.setCur, GraphicStackState.emitL,
              GraphicStackState.push, hfr]
          · simp only [GraphicStackState.setCur, GraphicStackState.emitL,
              GraphicStackState.push, hfr]
            rw [hfr] at hlen
            simp at hlen ⊢
            omega
          · intro f hfm
            simp only [GraphicStackState.setCur, GraphicStackState.emitL,
              GraphicStackState.push, hfr, GraphicStackState.current] at hfm
            simp at hfm
            rcases hfm with hfm | hfm
            · rw [hfm, ← hcur]
              exact hid
            · exact h3 f (by rw [hfr]; exact hfm)
          · intro _
            simp [GraphicStackState.setCur, GraphicStackState.emitL,
              GraphicStackState.push, hfr, GraphicStackState.current]
            exact hm
          · intro hcon
            simp [GraphicStackState.setCur, GraphicStackState.emitL,
              GraphicStackState.push, hfr] at hcon
          · have hdep : s.depth < kMaxStackDepth := by
              unfold GraphicStackState.depth kMaxStackDepth
              omega
            simp [GraphicStackState.setCur, GraphicStackState.emitL,
              GraphicStackState.push, hdep]
    · simp only [hid, ite_false]
      have hlen2 : 2 ≤ s.frames.length := by
        rcases hfr : s.frames with _ | ⟨a, tl⟩
        · exact absurd hfr h1
        · match tl with
          | [] => exact absurd (h5 (by rw [hfr]; rfl)) hid
          | b :: rest => simp [hfr]
      have hpopcur : s.pop.current.fMatrix = SkMatrix.identity := by
        rcases hfr : s.frames with _ | ⟨a, tl⟩
        · exact absurd hfr h1
        · match tl with
          | [] => rw [hfr] at hlen2; simp at hlen2
          | b :: rest =>
              have : b ∈ s.frames.tail := by rw [hfr]; simp
              have hb := h3 b this
              simp [GraphicStackState.pop, GraphicStackState.current, hfr]
              exact hb
      have hpoptail : ∀ f ∈ s.pop.frames.tail, f.fMatrix = SkMatrix.identity := by
        intro f hfm
        refine h3 f ?_
        simp only [GraphicStackState.pop] at hfm
        exact List.mem_of_mem_tail hfm
      have hpoplen : s.pop.frames.length = s.frames.length - 1 := by
        simp [GraphicStackState.pop]
      have hpopne : s.pop.frames ≠ [] := by
        intro hc
        have := congrArg List.length hc
        rw [hpoplen] at this
        simp at this
        omega
      have hpopok : s.pop.ok = s.ok := by
        have : 0 < s.depth := by
          unfold GraphicStackState.depth
          omega
        simp [GraphicStackState.pop, this]
      by_cases hm : m = SkMatrix.identity
      · simp only [hm, ite_true]
        refine ⟨⟨hpopne, by omega, hpoptail, ?_, fun _ => hpopcur⟩, hpopok⟩
        intro hcon
        rw [hpoplen] at hcon
        omega
      · simp only [hm, ite_false]
        rcases hfr : s.pop.frames with _ | ⟨a, tl⟩
        · exact absurd hfr hpopne
        · have hcur : s.pop.current = a := by simp [GraphicStackState.current, hfr]
          refine ⟨⟨?_, ?_, ?_, ?_, ?_⟩, ?_⟩
          · simp [GraphicStackState.setCur, GraphicStackState.emitL,
              GraphicStackState.push, hfr]
          · simp only [GraphicStackState.setCur, GraphicStackState.emitL,
              GraphicStackState.push, hfr]
            rw [hfr] at hpoplen
            simp at hpoplen ⊢
            omega
          · intro f hfm
            simp only [GraphicStackState.setCur, GraphicStackState.emitL,
              GraphicStackState.push, hfr, GraphicStackState.current] at hfm
            simp at hfm
            rcases hfm with hfm | hfm
            · rw [hfm, ← hcur]
              exact hpopcur
            · exact hpoptail f (by rw [hfr]; exact hfm)
          · intro _
            simp [GraphicStackState.setCur, GraphicStackState.emitL,
              GraphicStackState.push, hfr, GraphicStackState.current]
            exact hm
          · intro hcon
            simp [GraphicStackState.setCur, GraphicStackState.emitL,
              GraphicStackState.push, hfr] at hcon
          · have hdep : s.pop.depth < kMaxStackDepth := by
              unfold GraphicStackState.depth kMaxStackDepth
              rw [hpoplen]
              omega
            simp [GraphicStackState.setCur, GraphicStackState.emitL,
              GraphicStackState.push, hdep, hpopok]

theorem setCur_matrixEq (s : GraphicStackState) (f : GraphicStateEntry → GraphicStateEntry)
    (hf : ∀ e, (f e).fMatrix = e.fMatrix) : framesMatrixEq (s.setCur f) s := by
  constructor
  · rcases h : s.frames with _ | ⟨a, tl⟩ <;>
      simp [GraphicStackState.setCur, h, hf]
  · rcases h : s.frames with _ | ⟨a, tl⟩ <;>
      simp [GraphicStackState.setCur, h]

theorem matrixEq_trans (x y z : GraphicStackState) (h1 : framesMatrixEq x y)
    (h2 : framesMatrixEq y z) : framesMatrixEq x z :=
  ⟨h1.1.trans h2.1, h1.2.trans h2.2⟩

theorem matrixEq_refl (x : GraphicStackState) : framesMatrixEq x x := ⟨rfl, rfl⟩

theorem udsFill_matrixEq (s : GraphicStackState) (st : GraphicStateEntry) :
    framesMatrixEq (udsFill s st) s := by
  unfold udsFill
  split_ifs <;>
    first
    | exact matrixEq_trans _ _ _ (setCur_matrixEq _ _ (fun e => rfl)) (matrixEq_refl _)
    | exact matrixEq_refl _

theorem udsGS_matrixEq (s : GraphicStackState) (st : GraphicStateEntry) :
    framesMatrixEq (udsGS s st) s := by
  unfold udsGS
  split_ifs <;>
    first
    | exact matrixEq_trans _ _ _ (setCur_matrixEq _ _ (fun e => rfl)) (matrixEq_refl _)
    | exact matrixEq_refl _

theorem udsTextScale_matrixEq (s : GraphicStackState) (st : GraphicStateEntry) :
    framesMatrixEq (udsTextScale s st) s := by
  unfold udsTextScale
  split_ifs <;>
    first
    | exact matrixEq_trans _ _ _ (setCur_matrixEq _ _ (fun e => rfl)) (matrixEq_refl _)
    | exact matrixEq_refl _

theorem udsTextFill_matrixEq (s : GraphicStackState) (st : GraphicStateEntry) :
    framesMatrixEq (udsTextFill s st) s := by
  unfold udsTextFill
  split_ifs <;>
    first
    | exact matrixEq_trans _ _ _ (setCur_matrixEq _ _ (fun e => rfl)) (matrixEq_refl _)
    | exact matrixEq_refl _

theorem updateDrawingState_matrixEq (s : GraphicStackState) (st : GraphicStateEntry) :
    framesMatrixEq (s.updateDrawingState st) s := by
  unfold GraphicStackState.updateDrawingState udsText
  split_ifs
  · exact matrixEq_trans _ _ _ (udsTextFill_matrixEq _ _)
      (matrixEq_trans _ _ _ (udsTextScale_matrixEq _ _)
        (matrixEq_trans _ _ _ (udsGS_matrixEq _ _) (udsFill_matrixEq _ _)))
  · exact matrixEq_trans _ _ _ (udsGS_matrixEq _ _) (udsFill_matrixEq _ _)

theorem gssInv_of_matrixEq (x y : GraphicStackState) (hm : framesMatrixEq x y)
    (hy : gssInv y) : gssInv x := by
  obtain ⟨hmap, _⟩ := hm
  obtain ⟨h1, h2, h3, h4, h5⟩ := hy
  have hlen : x.frames.length = y.frames.length := by
    have := congrArg List.length hmap
    simpa using this
  have htail : ∀ (l : List GraphicStateEntry),
      l.tail.map (fun e => e.fMatrix) = (l.map (fun e => e.fMatrix)).tail := by
    intro l
    cases l <;> simp
  have hcur : x.current.fMatrix = y.current.fMatrix := by
    rcases hx : x.frames with _ | ⟨a, tl⟩ <;> rcases hyf : y.frames with _ | ⟨b, tl2⟩ <;>
      rw [hx, hyf] at hmap <;>
        simp_all [GraphicStackState.current]
  refine ⟨?_, by omega, ?_, ?_, ?_⟩
  · intro hc
    rw [hc] at hlen
    simp at hlen
    exact h1 (List.length_eq_zero.mp hlen.symm)
  · intro f hfm
    have hmem : f.fMatrix ∈ x.frames.tail.map (fun e => e.fMatrix) :=
      List.mem_map_of_mem _ hfm
    rw [htail, hmap, ← htail] at hmem
    obtain ⟨g, hg1, hg2⟩ := List.mem_map.mp hmem
    rw [← hg2]
    exact h3 g hg1
  · intro hc
    rw [hcur]
    exact h4 (by omega)
  · intro hc
    rw [hcur]
    exact h5 (by omega)

theorem contentStep_inv (tr : Int × Int) (s : GraphicStackState) (e : ContentEntry)
    (hinv : gssInv s) :
    gssInv (contentStep tr s e) ∧ (contentStep tr s e).ok = s.ok := by
  obtain ⟨hc1, hc2⟩ := updateClip_inv s e.fState.fClipStack e.fState.fClipRegion tr hinv
  obtain ⟨hm1, hm2⟩ := updateMatrix_inv _ e.fState.fMatrix hc1
  have hd := updateDrawingState_matrixEq
    ((s.updateClip e.fState.fClipStack e.fState.fClipRegion tr).updateMatrix e.fState.fMatrix)
    e.fState
  have hd1 := gssInv_of_matrixEq _ _ hd hm1
  unfold contentStep
  constructor
  · obtain ⟨k1, k2, k3, k4, k5⟩ := hd1
    exact ⟨by simpa [GraphicStackState.emitL] using k1, by simpa [GraphicStackState.emitL] using k2,
      by simpa [GraphicStackState.emitL] using k3, by simpa [GraphicStackState.emitL] using k4,
      by simpa [GraphicStackState.emitL] using k5⟩
  · simp only [GraphicStackState.emitL]
    rw [hd.2, hm2, hc2]

theorem foldl_contentStep_inv (tr : Int × Int) (entries : List ContentEntry)
    (s : GraphicStackState) (hinv : gssInv s) :
    gssInv (entries.foldl (contentStep tr) s) ∧
    (entries.foldl (contentStep tr) s).ok = s.ok := by
  induction entries generalizing s with
  | nil => exact ⟨hinv, rfl⟩
  | cons e rest ih =>
      obtain ⟨hstep, hok⟩ := contentStep_inv tr s e hinv
      obtain ⟨hall, hok2⟩ := ih (contentStep tr s e) hstep
      exact ⟨hall, by rw [List.foldl_cons, hok2, hok]⟩

theorem drainGo_ok (fr : List GraphicStateEntry) (st : List Instr) (ok : Bool) :
    (drainGo fr st ok).ok = ok := by
  induction fr generalizing st with
  | nil => rfl
  | cons a tl ih =>
      match tl with
      | [] => rfl
      | b :: rest => exact ih (st ++ [Instr.restore])

/-- C10: during a `content()` finalization pass, the emitter's depth never
exceeds 2 — `updateClip` pops to a match or to depth 0 before its single push
and `updateMatrix` pops any dirty-matrix frame before its single push — so for
every entry chain the replay keeps every depth assertion satisfied (in
particular the fatal `push` assertion `depth < kMaxStackDepth = 12` is
unreachable, 2 < 12). -/
theorem c10_content_depth_safe (cs0 : ClipStack) (cr0 : SkRegion) (tr : Int × Int)
    (entries : List ContentEntry) :
    (entries.foldl (contentStep tr) (GraphicStackState.start cs0 cr0)).depth ≤ 2 ∧
    (entries.foldl (contentStep tr) (GraphicStackState.start cs0 cr0)).ok = true ∧
    (contentReplay cs0 cr0 tr entries).ok = true ∧ 2 < kMaxStackDepth := by
  have hstart : gssInv (GraphicStackState.start cs0 cr0) := by
    refine ⟨by simp [GraphicStackState.start], by simp [GraphicStackState.start], ?_, ?_, ?_⟩
    · intro f hfm
      simp [GraphicStackState.start] at hfm
    · intro hc
      simp [GraphicStackState.start] at hc
    · intro _
      simp [GraphicStackState.start, GraphicStackState.current, GraphicStateEntry.init]
  obtain ⟨⟨k1, k2, k3, k4, k5⟩, hok⟩ := foldl_contentStep_inv tr entries _ hstart
  refine ⟨?_, ?_, ?_, by unfold kMaxStackDepth; omega⟩
  · unfold GraphicStackState.depth
    omega
  · rw [hok]
    rfl
  · unfold contentReplay GraphicStackState.drainStack
    rw [drainGo_ok, hok]
    rfl

theorem sameSkeleton_refl (x : Device) : sameSkeleton x x :=
  ⟨rfl, rfl, rfl, rfl, rfl, rfl, rfl, rfl, rfl⟩

theorem sameSkeleton_trans (x y z : Device) (h1 : sameSkeleton x y)
    (h2 : sameSkeleton y z) : sameSkeleton x z :=
  ⟨h1.1.trans h2.1, h1.2.1.trans h2.2.1, h1.2.2.1.trans h2.2.2.1,
   h1.2.2.2.1.trans h2.2.2.2.1, h1.2.2.2.2.1.trans h2.2.2.2.2.1,
   h1.2.2.2.2.2.1.trans h2.2.2.2.2.2.1, h1.2.2.2.2.2.2.1.trans h2.2.2.2.2.2.2.1,
   h1.2.2.2.2.2.2.2.1.trans h2.2.2.2.2.2.2.2.1,
   h1.2.2.2.2.2.2.2.2.trans h2.2.2.2.2.2.2.2.2⟩

theorem addGraphicStateResource_skel (d : Device) (gs : Nat) :
    sameSkeleton (addGraphicStateResource d gs).2 d := by
  unfold addGraphicStateResource
  dsimp only
  split_ifs <;> exact ⟨rfl, rfl, rfl, rfl, rfl, rfl, rfl, rfl, rfl⟩

theorem addShaderResource_skel (d : Device) (ps : Nat) :
    sameSkeleton (addShaderResource d ps).2 d := by
  unfold addShaderResource
  dsimp only
  split_ifs <;> exact ⟨rfl, rfl, rfl, rfl, rfl, rfl, rfl, rfl, rfl⟩

theorem populate_skel (c : Collab) (d : Device) (m : SkMatrix) (cs : ClipStack)
    (cr : SkRegion) (paint : SkPaint) (hasText : Bool) :
    sameSkeleton (populateGraphicStateEntryFromPaint c d m cs cr paint hasText).2 d := by
  unfold populateGraphicStateEntryFromPaint
  dsimp only
  rcases paint.shader with _ | sh
  · dsimp only
    exact addGraphicStateResource_skel d _
  · dsimp only
    rcases c.getPDFShader sh (SkMatrix.postConcatM m d.initialTransform) cr.getBounds
        with _ | ps
    · dsimp only
      rcases c.shaderAsColor sh with _ | gc <;>
        · dsimp only
          exact addGraphicStateResource_skel d _
    · dsimp only
      exact sameSkeleton_trans _ _ _ (addGraphicStateResource_skel _ _)
        (addShaderResource_skel d ps)

/-- C1: for a source-over draw whose freshly captured state compares equal
(under `compareInitialState`) to the tail entry's state, `setUpContentEntry`
returns the existing tail entry — the chain and the tail pointer are unchanged,
no new entry is linked — so drawing the second call's instructions appends them
to that same entry's buffer after the first call's instructions. -/
theorem c1_entry_merge (c : Collab) (d : Device) (cso : Option ClipStack)
    (cr : SkRegion) (m : SkMatrix) (paint : SkPaint) (hasText : Bool)
    (le : ContentEntry)
    (hmode : paint.mode = XferMode.srcOver)
    (hcr : cr.isEmptyR = false)
    (hlast : d.lastEntry? = some le)
    (hne : le.fContent ≠ [])
    (hcmp : ((populateGraphicStateEntryFromPaint c d m (resolveClipStack d cso cr) cr
        paint hasText).1).compareInitialState le.fState = true) :
    (setUpContentEntry c d cso cr m paint hasText).1 = some le.eid ∧
    (setUpContentEntry c d cso cr m paint hasText).2.1 = none ∧
    (setUpContentEntry c d cso cr m paint hasText).2.2.contentEntries = d.contentEntries ∧
    (setUpContentEntry c d cso cr m paint hasText).2.2.lastContentEntry
      = d.lastContentEntry ∧
    ∀ body, (appendToEntry (setUpContentEntry c d cso cr m paint hasText).2.2 le.eid
        body).contentEntries
      = d.contentEntries.map (fun en =>
          if en.eid = le.eid then { en with fContent := en.fContent ++ body } else en) := by
  have hemp : le.fContent.isEmpty = false := by
    rcases hl : le.fContent with _ | ⟨x, xs⟩
    · exact absurd hl hne
    · rfl
  have hsu : setUpContentEntry c d cso cr m paint hasText
      = ((setUpCoreChain c d (resolveClipStack d cso cr) cr m XferMode.srcOver
            paint hasText).1, none,
         (setUpCoreChain c d (resolveClipStack d cso cr) cr m XferMode.srcOver
            paint hasText).2) := by
    unfold setUpContentEntry
    rw [hmode]
    simp [hcr]
  have hskel := populate_skel c d m (resolveClipStack d cso cr) cr paint hasText
  have hcc : setUpCoreChain c d (resolveClipStack d cso cr) cr m XferMode.srcOver
      paint hasText
      = (some le.eid,
         { (populateGraphicStateEntryFromPaint c d m (resolveClipStack d cso cr) cr
             paint hasText).2 with
           nextId := (populateGraphicStateEntryFromPaint c d m (resolveClipStack d cso cr)
             cr paint hasText).2.nextId + 1 }) := by
    unfold setUpCoreChain
    rw [hlast]
    dsimp only
    rw [hemp]
    simp [hcmp]
  rw [hsu, hcc]
  refine ⟨rfl, rfl, hskel.1, hskel.2.1, ?_⟩
  intro body
  unfold appendToEntry
  dsimp only
  rw [hskel.1]

/-- Witness for C1: a second source-over draw on a device whose tail entry has
the same captured state merges into the tail. -/
theorem c1_witness :
    (setUpContentEntry cEx dEx1 (some [elRect]) rEx SkMatrix.identity SkPaint.stock
        false).1 = some 0 ∧
    (setUpContentEntry cEx dEx1 (some [elRect]) rEx SkMatrix.identity SkPaint.stock
        false).2.2.contentEntries = dEx1.contentEntries ∧
    (appendToEntry (setUpContentEntry cEx dEx1 (some [elRect]) rEx SkMatrix.identity
        SkPaint.stock false).2.2 0 [Instr.save]).contentEntries
      = dEx1.contentEntries.map (fun en =>
          if en.eid = 0 then { en with fContent := en.fContent ++ [Instr.save] } else en) :=
  let h := c1_entry_merge cEx dEx1 (some [elRect]) rEx SkMatrix.identity SkPaint.stock false
    { eid := 0, fState := stEx, fContent := [Instr.clipNonZero] }
    rfl rfl (by decide) (by decide) (by decide)
  ⟨h.1, h.2.2.1, h.2.2.2.2 [Instr.save]⟩

/-- Counterexample for C2 as stated: a destination-over draw on a device whose
chain already holds one nonempty entry produces a new entry (the chain grows,
linked at the head) while the tail pointer is left unchanged — yet the chain
was not empty, refuting "the tail pointer is left unchanged only if the chain
had been empty". -/
theorem c2_counterexample :
    (setUpContentEntry cEx dEx1 (some [elRect]) rEx SkMatrix.identity paintDstOver
        false).2.2.lastContentEntry = dEx1.lastContentEntry ∧
    dEx1.contentEntries ≠ [] ∧
    (setUpContentEntry cEx dEx1 (some [elRect]) rEx SkMatrix.identity paintDstOver
        false).2.2.contentEntries.length = dEx1.contentEntries.length + 1 := by
  refine ⟨by decide, by decide, by decide⟩

/-- C2 (amended): a destination-over draw that produces a new content entry
links it as the new head of the chain, so it is replayed before all previously
recorded entries; the tail pointer is changed (set to the new entry) exactly
when the chain had been empty, and left unchanged when the chain was non-empty. -/
theorem c2_dstover_head_insert (c : Collab) (d : Device) (cso : Option ClipStack)
    (cr : SkRegion) (m : SkMatrix) (paint : SkPaint) (hasText : Bool)
    (hmode : paint.mode = XferMode.dstOver)
    (hcr : cr.isEmptyR = false) :
    (d.lastContentEntry = none → d.contentEntries = [] →
      (setUpContentEntry c d cso cr m paint hasText).1 = some d.nextId ∧
      (setUpContentEntry c d cso cr m paint hasText).2.2.contentEntries
        = [{ eid := d.nextId
             fState := (populateGraphicStateEntryFromPaint c d m
               (resolveClipStack d cso cr) cr paint hasText).1
             fContent := [] }] ∧
      (setUpContentEntry c d cso cr m paint hasText).2.2.lastContentEntry
        = some d.nextId) ∧
    (∀ le, d.lastEntry? = some le → le.fContent ≠ [] →
      (setUpContentEntry c d cso cr m paint hasText).1 = some d.nextId ∧
      (setUpContentEntry c d cso cr m paint hasText).2.2.contentEntries
        = { eid := d.nextId
            fState := (populateGraphicStateEntryFromPaint c d m
              (resolveClipStack d cso cr) cr paint hasText).1
            fContent := ([] : List Instr) } :: d.contentEntries ∧
      (setUpContentEntry c d cso cr m paint hasText).2.2.lastContentEntry
        = d.lastContentEntry) := by
  have hskel := populate_skel c d m (resolveClipStack d cso cr) cr paint hasText
  have hsu : setUpContentEntry c d cso cr m paint hasText
      = ((setUpCoreChain c d (resolveClipStack d cso cr) cr m XferMode.dstOver
            paint hasText).1, none,
         (setUpCoreChain c d (resolveClipStack d cso cr) cr m XferMode.dstOver
            paint hasText).2) := by
    unfold setUpContentEntry
    rw [hmode]
    simp [hcr]
  constructor
  · intro hln hce
    have hle : d.lastEntry? = none := by
      unfold Device.lastEntry?
      rw [hln]
    have hcc : setUpCoreChain c d (resolveClipStack d cso cr) cr m XferMode.dstOver
        paint hasText
        = (some (populateGraphicStateEntryFromPaint c d m (resolveClipStack d cso cr) cr
             paint hasText).2.nextId,
           { (populateGraphicStateEntryFromPaint c d m (resolveClipStack d cso cr) cr
               paint hasText).2 with
             nextId := (populateGraphicStateEntryFromPaint c d m
               (resolveClipStack d cso cr) cr paint hasText).2.nextId + 1
             contentEntries :=
               [{ eid := (populateGraphicStateEntryFromPaint c d m
                    (resolveClipStack d cso cr) cr paint hasText).2.nextId
                  fState := (populateGraphicStateEntryFromPaint c d m
                    (resolveClipStack d cso cr) cr paint hasText).1
                  fContent := [] }]
             lastContentEntry := some (populateGraphicStateEntryFromPaint c d m
               (resolveClipStack d cso cr) cr paint hasText).2.nextId }) := by
      unfold setUpCoreChain
      rw [hle]
    rw [hsu, hcc]
    dsimp only
    rw [hskel.2.2.1]
    exact ⟨rfl, rfl, rfl⟩
  · intro le hle hne
    have hemp : le.fContent.isEmpty = false := by
      rcases hl : le.fContent with _ | ⟨x, xs⟩
      · exact absurd hl hne
      · rfl
    have hcc : setUpCoreChain c d (resolveClipStack d cso cr) cr m XferMode.dstOver
        paint hasText
        = (some (populateGraphicStateEntryFromPaint c d m (resolveClipStack d cso cr) cr
             paint hasText).2.nextId,
           { (populateGraphicStateEntryFromPaint c d m (resolveClipStack d cso cr) cr
               paint hasText).2 with
             nextId := (populateGraphicStateEntryFromPaint c d m
               (resolveClipStack d cso cr) cr paint hasText).2.nextId + 1
             contentEntries :=
               { eid := (populateGraphicStateEntryFromPaint c d m
                    (resolveClipStack d cso cr) cr paint hasText).2.nextId
                 fState := (populateGraphicStateEntryFromPaint c d m
                    (resolveClipStack d cso cr) cr paint hasText).1
                 fContent := ([] : List Instr) } ::
               (populateGraphicStateEntryFromPaint c d m (resolveClipStack d cso cr) cr
                 paint hasText).2.contentEntries }) := by
      unfold setUpCoreChain
      rw [hle]
      dsimp only
      rw [hemp]
      simp
    rw [hsu, hcc]
    dsimp only
    rw [hskel.2.2.1, hskel.1, hskel.2.1]
    exact ⟨rfl, rfl, rfl⟩

/-- Witness for C2 (amended) at a concrete nonempty-chain device. -/
theorem c2_witness :
    (setUpContentEntry cEx dEx1 (some [elRect, elPath]) rEx SkMatrix.identity paintDstOver
        false).1 = some dEx1.nextId ∧
    (setUpContentEntry cEx dEx1 (some [elRect, elPath]) rEx SkMatrix.identity paintDstOver
        false).2.2.lastContentEntry = dEx1.lastContentEntry :=
  let h := (c2_dstover_head_insert cEx dEx1 (some [elRect, elPath]) rEx SkMatrix.identity
    paintDstOver false rfl rfl).2
    { eid := 0, fState := stEx, fContent := [Instr.clipNonZero] } (by decide) (by decide)
  ⟨h.1, h.2.2⟩

theorem tdFind_not_mem (l : List Nat) (x : Nat) (h : x ∉ l) : tdFind l x = -1 := by
  induction l with
  | nil => rfl
  | cons a rest ih =>
      have hax : ¬ a = x := fun hc => h (hc ▸ List.mem_cons_self a rest)
      have hrest : x ∉ rest := fun hc => h (List.mem_cons_of_mem a hc)
      unfold tdFind
      rw [ih hrest]
      simp [hax]

theorem tdFind_mem_nonneg (l : List Nat) (x : Nat) (h : x ∈ l) : 0 ≤ tdFind l x := by
  induction l with
  | nil => simp at h
  | cons a rest ih =>
      unfold tdFind
      by_cases hax : a = x
      · simp [hax]
      · have hrest : x ∈ rest := by
          rcases List.mem_cons.mp h with h1 | h1
          · exact absurd h1.symm hax
          · exact h1
        have hnn := ih hrest
        simp only [hax, ite_false]
        split_ifs with hlt <;> omega

theorem tdFind_append_self (l : List Nat) (x : Nat) (h : x ∉ l) :
    tdFind (l ++ [x]) x = (l.length : Int) := by
  induction l with
  | nil => simp [tdFind]
  | cons a rest ih =>
      have hax : ¬ a = x := fun hc => h (hc ▸ List.mem_cons_self a rest)
      have hrest : x ∉ rest := fun hc => h (List.mem_cons_of_mem a hc)
      rw [List.cons_append]
      unfold tdFind
      rw [ih hrest]
      have hnn : ¬ ((rest.length : Int) < 0) := by omega
      simp only [hax, ite_false, hnn]
      simp

theorem addGS_new (d : Device) (g : Nat) (h : g ∉ d.graphicStateResources) :
    addGraphicStateResource d g
      = ((d.graphicStateResources.length : Int),
         { d with graphicStateResources := d.graphicStateResources ++ [g] }) := by
  unfold addGraphicStateResource
  rw [tdFind_not_mem d.graphicStateResources g h]
  rfl

theorem addGS_idem (d : Device) (g : Nat) :
    (addGraphicStateResource (addGraphicStateResource d g).2 g).1
      = (addGraphicStateResource d g).1 ∧
    (addGraphicStateResource (addGraphicStateResource d g).2 g).2
      = (addGraphicStateResource d g).2 := by
  by_cases h : g ∈ d.graphicStateResources
  · have hnn := tdFind_mem_nonneg d.graphicStateResources g h
    have hr : addGraphicStateResource d g = (tdFind d.graphicStateResources g, d) := by
      unfold addGraphicStateResource
      rw [if_neg (by omega)]
    rw [hr]
    dsimp only
    rw [hr]
    exact ⟨rfl, rfl⟩
  · rw [addGS_new d g h]
    dsimp only
    have h2 : addGraphicStateResource
        { d with graphicStateResources := d.graphicStateResources ++ [g] } g
        = ((d.graphicStateResources.length : Int),
           { d with graphicStateResources := d.graphicStateResources ++ [g] }) := by
      unfold addGraphicStateResource
      dsimp only
      rw [tdFind_append_self d.graphicStateResources g h]
      rw [if_neg (by omega)]
    rw [h2]
    exact ⟨rfl, rfl⟩

theorem addShader_new (d : Device) (ps : Nat) (h : ps ∉ d.shaderResources) :
    addShaderResource d ps
      = ((d.shaderResources.length : Int),
         { d with shaderResources := d.shaderResources ++ [ps] }) := by
  unfold addShaderResource
  rw [tdFind_not_mem d.shaderResources ps h]
  rfl

theorem addShader_idem (d : Device) (ps : Nat) :
    (addShaderResource (addShaderResource d ps).2 ps).1 = (addShaderResource d ps).1 ∧
    (addShaderResource (addShaderResource d ps).2 ps).2 = (addShaderResource d ps).2 := by
  by_cases h : ps ∈ d.shaderResources
  · have hnn := tdFind_mem_nonneg d.shaderResources ps h
    have hr : addShaderResource d ps = (tdFind d.shaderResources ps, d) := by
      unfold addShaderResource
      rw [if_neg (by omega)]
    rw [hr]
    dsimp only
    rw [hr]
    exact ⟨rfl, rfl⟩
  · rw [addShader_new d ps h]
    dsimp only
    have h2 : addShaderResource
        { d with shaderResources := d.shaderResources ++ [ps] } ps
        = ((d.shaderResources.length : Int),
           { d with shaderResources := d.shaderResources ++ [ps] }) := by
      unfold addShaderResource
      dsimp only
      rw [tdFind_append_self d.shaderResources ps h]
      rw [if_neg (by omega)]
    rw [h2]
    exact ⟨rfl, rfl⟩

theorem getFont_new (c : Collab) (d : Device) (tf gl : Nat)
    (h : c.fontResource tf gl ∉ d.fontResources) :
    getFontResourceIndex c d tf gl
      = ((d.fontResources.length : Int),
         { d with fontResources := d.fontResources ++ [c.fontResource tf gl] }) := by
  unfold getFontResourceIndex
  dsimp only
  rw [tdFind_not_mem d.fontResources _ h]
  rfl

theorem getFont_idem (c : Collab) (d : Device) (tf gl : Nat) :
    (getFontResourceIndex c (getFontResourceIndex c d tf gl).2 tf gl).1
      = (getFontResourceIndex c d tf gl).1 ∧
    (getFontResourceIndex c (getFontResourceIndex c d tf gl).2 tf gl).2
      = (getFontResourceIndex c d tf gl).2 := by
  by_cases h : c.fontResource tf gl ∈ d.fontResources
  · have hnn := tdFind_mem_nonneg d.fontResources _ h
    have hr : getFontResourceIndex c d tf gl
        = (tdFind d.fontResources (c.fontResource tf gl), d) := by
      unfold getFontResourceIndex
      dsimp only
      rw [if_neg (by omega)]
    rw [hr]
    dsimp only
    rw [hr]
    exact ⟨rfl, rfl⟩
  · rw [getFont_new c d tf gl h]
    dsimp only
    have h2 : getFontResourceIndex c
        { d with fontResources := d.fontResources ++ [c.fontResource tf gl] } tf gl
        = ((d.fontResources.length : Int),
           { d with fontResources := d.fontResources ++ [c.fontResource tf gl] }) := by
      unfold getFontResourceIndex
      dsimp only
      rw [tdFind_append_self d.fontResources _ h]
      rw [if_neg (by omega)]
    rw [h2]
    exact ⟨rfl, rfl⟩

theorem internAllGS_spec (l : List Nat) (d : Device) (hnd : l.Nodup)
    (hdisj : ∀ x ∈ l, x ∉ d.graphicStateResources) :
    (internAllGS d l).1
      = (List.range l.length).map
          (fun i => ((d.graphicStateResources.length + i : Nat) : Int)) ∧
    (internAllGS d l).2.graphicStateResources = d.graphicStateResources ++ l := by
  induction l generalizing d with
  | nil => simp [internAllGS]
  | cons g rest ih =>
      have hg : g ∉ d.graphicStateResources := hdisj g (List.mem_cons_self g rest)
      have hrest_nd : rest.Nodup := (List.nodup_cons.mp hnd).2
      have hgr : g ∉ rest := (List.nodup_cons.mp hnd).1
      have hdisj' : ∀ x ∈ rest,
          x ∉ ({ d with graphicStateResources := d.graphicStateResources ++ [g]
               } : Device).graphicStateResources := by
        intro x hx hc
        rcases List.mem_append.mp hc with h1 | h1
        · exact hdisj x (List.mem_cons_of_mem g hx) h1
        · simp at h1
          exact hgr (h1 ▸ hx)
      obtain ⟨ih1, ih2⟩ := ih
        { d with graphicStateResources := d.graphicStateResources ++ [g] } hrest_nd hdisj'
      unfold internAllGS
      rw [addGS_new d g hg]
      dsimp only
      constructor
      · simp only [List.length_cons]
        rw [ih1, List.range_succ_eq_map, List.map_cons, List.map_map]
        simp only [List.cons.injEq]
        refine ⟨by simp, ?_⟩
        apply List.map_congr_left
        intro i _
        simp
        omega
      · rw [ih2]
        simp

theorem internAllShaders_spec (l : List Nat) (d : Device) (hnd : l.Nodup)
    (hdisj : ∀ x ∈ l, x ∉ d.shaderResources) :
    (internAllShaders d l).1
      = (List.range l.length).map
          (fun i => ((d.shaderResources.length + i : Nat) : Int)) ∧
    (internAllShaders d l).2.shaderResources = d.shaderResources ++ l := by
  induction l generalizing d with
  | nil => simp [internAllShaders]
  | cons g rest ih =>
      have hg : g ∉ d.shaderResources := hdisj g (List.mem_cons_self g rest)
      have hrest_nd : rest.Nodup := (List.nodup_cons.mp hnd).2
      have hgr : g ∉ rest := (List.nodup_cons.mp hnd).1
      have hdisj' : ∀ x ∈ rest,
          x ∉ ({ d with shaderResources := d.shaderResources ++ [g]
               } : Device).shaderResources := by
        intro x hx hc
        rcases List.mem_append.mp hc with h1 | h1
        · exact hdisj x (List.mem_cons_of_mem g hx) h1
        · simp at h1
          exact hgr (h1 ▸ hx)
      obtain ⟨ih1, ih2⟩ := ih
        { d with shaderResources := d.shaderResources ++ [g] } hrest_nd hdisj'
      unfold internAllShaders
      rw [addShader_new d g hg]
      dsimp only
      constructor
      · simp only [List.length_cons]
        rw [ih1, List.range_succ_eq_map, List.map_cons, List.map_map]
        simp only [List.cons.injEq]
        refine ⟨by simp, ?_⟩
        apply List.map_congr_left
        intro i _
        simp
        omega
      · rw [ih2]
        simp

theorem internAllFonts_spec (c : Collab) (l : List (Nat × Nat)) (d : Device)
    (hnd : (l.map (fun fg => c.fontResource fg.1 fg.2)).Nodup)
    (hdisj : ∀ fg ∈ l, c.fontResource fg.1 fg.2 ∉ d.fontResources) :
    (internAllFonts c d l).1
      = (List.range l.length).map (fun i => ((d.fontResources.length + i : Nat) : Int)) ∧
    (internAllFonts c d l).2.fontResources
      = d.fontResources ++ l.map (fun fg => c.fontResource fg.1 fg.2) := by
  induction l generalizing d with
  | nil => simp [internAllFonts]
  | cons fg rest ih =>
      have hval : c.fontResource fg.1 fg.2 ∉ d.fontResources :=
        hdisj fg (List.mem_cons_self fg rest)
      rw [List.map_cons, List.nodup_cons] at hnd
      have hdisj' : ∀ p ∈ rest,
          c.fontResource p.1 p.2 ∉ ({ d with fontResources :=
            d.fontResources ++ [c.fontResource fg.1 fg.2] } : Device).fontResources := by
        intro p hp hc
        rcases List.mem_append.mp hc with h1 | h1
        · exact hdisj p (List.mem_cons_of_mem fg hp) h1
        · simp at h1
          exact hnd.1 (h1 ▸ List.mem_map_of_mem (fun q => c.fontResource q.1 q.2) hp)
      obtain ⟨ih1, ih2⟩ := ih
        { d with fontResources := d.fontResources ++ [c.fontResource fg.1 fg.2] }
        hnd.2 hdisj'
      unfold internAllFonts
      rw [getFont_new c d fg.1 fg.2 hval]
      dsimp only
      constructor
      · simp only [List.length_cons]
        rw [ih1, List.range_succ_eq_map, List.map_cons, List.map_map]
        simp only [List.cons.injEq]
        refine ⟨by simp, ?_⟩
        apply List.map_congr_left
        intro i _
        simp
        omega
      · rw [ih2]
        simp

/-- Counterexample for C8 as stated: the XObject namespace is never interned —
registering the same (pointer-identical) object twice yields indices 0 and then
1, not the same index. -/
theorem c8_counterexample :
    (pushXObject dEx0 7).1 = 0 ∧ (pushXObject (pushXObject dEx0 7).2 7).1 = 1 ∧
    (pushXObject (pushXObject dEx0 7).2 7).2.xObjectResources = [7, 7] := by
  refine ⟨by decide, by decide, by decide⟩

/-- C8 (amended): for the graphic-state, font and shader namespaces, interning
the same already-canonicalized object twice returns the same index both times
with the table unchanged, and interning `n` pairwise-distinct objects starting
from an empty table returns the sequential indices `0, …, n-1` in order of
first appearance with the table growing by exactly one slot per object; the
XObject namespace, by contrast, is registered by unconditional append — each
registration gets the next index even for an identical object. -/
theorem c8_resource_interning (c : Collab) (dA dB dC dD dE dF dX : Device)
    (g ps tf gl x : Nat) (lg ls : List Nat) (lf : List (Nat × Nat))
    (hgnd : lg.Nodup) (hgD : dD.graphicStateResources = [])
    (hsnd : ls.Nodup) (hsE : dE.shaderResources = [])
    (hfnd : (lf.map (fun fg => c.fontResource fg.1 fg.2)).Nodup)
    (hfF : dF.fontResources = []) :
    ((addGraphicStateResource (addGraphicStateResource dA g).2 g).1
        = (addGraphicStateResource dA g).1 ∧
     (addGraphicStateResource (addGraphicStateResource dA g).2 g).2
        = (addGraphicStateResource dA g).2) ∧
    ((addShaderResource (addShaderResource dB ps).2 ps).1 = (addShaderResource dB ps).1 ∧
     (addShaderResource (addShaderResource dB ps).2 ps).2 = (addShaderResource dB ps).2) ∧
    ((getFontResourceIndex c (getFontResourceIndex c dC tf gl).2 tf gl).1
        = (getFontResourceIndex c dC tf gl).1 ∧
     (getFontResourceIndex c (getFontResourceIndex c dC tf gl).2 tf gl).2
        = (getFontResourceIndex c dC tf gl).2) ∧
    ((internAllGS dD lg).1 = (List.range lg.length).map (fun i : Nat => (i : Int)) ∧
     (internAllGS dD lg).2.graphicStateResources = lg) ∧
    ((internAllShaders dE ls).1 = (List.range ls.length).map (fun i : Nat => (i : Int)) ∧
     (internAllShaders dE ls).2.shaderResources = ls) ∧
    ((internAllFonts c dF lf).1 = (List.range lf.length).map (fun i : Nat => (i : Int)) ∧
     (internAllFonts c dF lf).2.fontResources
        = lf.map (fun fg => c.fontResource fg.1 fg.2)) ∧
    ((pushXObject dX x).1 = dX.xObjectResources.length ∧
     (pushXObject dX x).2.xObjectResources = dX.xObjectResources ++ [x]) := by
  have hG := internAllGS_spec lg dD hgnd (by rw [hgD]; intro x hx; simp)
  have hS := internAllShaders_spec ls dE hsnd (by rw [hsE]; intro x hx; simp)
  have hF := internAllFonts_spec c lf dF hfnd (by rw [hfF]; intro fg hfg; simp)
  rw [hgD] at hG
  rw [hsE] at hS
  rw [hfF] at hF
  refine ⟨addGS_idem dA g, addShader_idem dB ps, getFont_idem c dC tf gl, ?_, ?_, ?_,
    rfl, rfl⟩
  · exact ⟨by rw [hG.1]; apply List.map_congr_left; intro i _; simp,
      by rw [hG.2]; simp only [List.nil_append]⟩
  · exact ⟨by rw [hS.1]; apply List.map_congr_left; intro i _; simp,
      by rw [hS.2]; simp only [List.nil_append]⟩
  · exact ⟨by rw [hF.1]; apply List.map_congr_left; intro i _; simp,
      by rw [hF.2]; simp only [List.nil_append]⟩

/-- Witness for C8 (amended) at concrete tables and objects. -/
theorem c8_witness :
    (addGraphicStateResource (addGraphicStateResource dEx0 5).2 5).1
      = (addGraphicStateResource dEx0 5).1 ∧
    (internAllGS dEx0 [4, 9, 2]).1 = [0, 1, 2] ∧
    (internAllGS dEx0 [4, 9, 2]).2.graphicStateResources = [4, 9, 2] ∧
    (pushXObject dEx0 7).1 = 0 :=
  let h := c8_resource_interning cEx dEx0 dEx0 dEx0 dEx0 dEx0 dEx0 dEx0
    5 3 1 2 7 [4, 9, 2] [6] [(1, 2)]
    (by decide) rfl (by decide) rfl (by decide) rfl
  ⟨h.1.1, by rw [h.2.2.2.1.1]; rfl, h.2.2.2.1.2, h.2.2.2.2.2.2.1⟩

theorem populate_stock (c : Collab) (D : Device) (m : SkMatrix) (cs : ClipStack)
    (cr : SkRegion) :
    populateGraphicStateEntryFromPaint c D m cs cr SkPaint.stock false
      = ({ fMatrix := m, fClipStack := cs, fClipRegion := cr, fColor := 4278190080,
           fTextScaleX := 0, fTextFill := 0, fShaderIndex := -1,
           fGraphicStateIndex :=
             (addGraphicStateResource D (c.gsForPaint SkPaint.stock)).1,
           fFont := none, fTextSize := none },
         (addGraphicStateResource D (c.gsForPaint SkPaint.stock)).2) := by
  unfold populateGraphicStateEntryFromPaint
  dsimp only
  norm_num [SkPaint.stock, GraphicStateEntry.init, SkColorSetA, SK_ColorBLACK]

theorem addGS_empty (D : Device) (g : Nat) (h : D.graphicStateResources = []) :
    addGraphicStateResource D g = (0, { D with graphicStateResources := [g] }) := by
  rw [addGS_new D g (by rw [h]; simp), h]
  simp

theorem setUpCoreChain_emptyChain (c : Collab) (D : Device) (cs : ClipStack)
    (cr : SkRegion) (m : SkMatrix) (mode : XferMode) (paint : SkPaint) (ht : Bool)
    (hln : D.lastContentEntry = none) :
    setUpCoreChain c D cs cr m mode paint ht
      = (some (populateGraphicStateEntryFromPaint c D m cs cr paint ht).2.nextId,
         { (populateGraphicStateEntryFromPaint c D m cs cr paint ht).2 with
           nextId := (populateGraphicStateEntryFromPaint c D m cs cr paint ht).2.nextId + 1
           contentEntries :=
             [{ eid := (populateGraphicStateEntryFromPaint c D m cs cr paint ht).2.nextId
                fState := (populateGraphicStateEntryFromPaint c D m cs cr paint ht).1
                fContent := [] }]
           lastContentEntry :=
             some (populateGraphicStateEntryFromPaint c D m cs cr paint ht).2.nextId }) := by
  have hle : D.lastEntry? = none := by
    unfold Device.lastEntry?
    rw [hln]
  unfold setUpCoreChain
  rw [hle]

theorem setUpPlain_stock_empty (c : Collab) (D : Device) (cs2 : ClipStack)
    (cr2 : SkRegion) (hln : D.lastContentEntry = none)
    (hcr : cr2.isEmptyR = false) (hgs : D.graphicStateResources = []) :
    setUpPlain c D (some cs2) cr2 SkMatrix.identity SkPaint.stock false
      = (some D.nextId,
         { D with
           graphicStateResources := [c.gsForPaint SkPaint.stock]
           contentEntries :=
             [{ eid := D.nextId
                fState :=
                  { fMatrix := SkMatrix.identity, fClipStack := cs2, fClipRegion := cr2,
                    fColor := 4278190080, fTextScaleX := 0, fTextFill := 0,
                    fShaderIndex := -1, fGraphicStateIndex := 0, fFont := none,
                    fTextSize := none }
                fContent := [] }]
           lastContentEntry := some D.nextId
           nextId := D.nextId + 1 }) := by
  unfold setUpPlain
  simp only [hcr, Bool.false_eq_true, if_false]
  have hres : resolveClipStack D (some cs2) cr2 = cs2 := rfl
  rw [hres, setUpCoreChain_emptyChain c D cs2 cr2 SkMatrix.identity XferMode.srcOver
    SkPaint.stock false hln]
  rw [populate_stock, addGS_empty D _ hgs]

theorem drawPaintStock_spec (c : Collab) (D : Device) (cs2 : ClipStack)
    (cr2 : SkRegion) (hln : D.lastContentEntry = none)
    (hcr : cr2.isEmptyR = false) (hgs : D.graphicStateResources = []) :
    drawPaintStock c D cs2 cr2
      = { D with
          graphicStateResources := [c.gsForPaint SkPaint.stock]
          contentEntries :=
            [{ eid := D.nextId
               fState :=
                 { fMatrix := SkMatrix.identity, fClipStack := cs2, fClipRegion := cr2,
                   fColor := 4278190080, fTextScaleX := 0, fTextFill := 0,
                   fShaderIndex := -1, fGraphicStateIndex := 0, fFont := none,
                   fTextSize := none }
               fContent := internalDrawPaintInstrs D SkMatrix.identity 0 }]
          lastContentEntry := some D.nextId
          nextId := D.nextId + 1 } := by
  unfold drawPaintStock
  rw [setUpPlain_stock_empty c D cs2 cr2 hln hcr hgs]
  unfold internalDrawPaint
  dsimp only
  have hinstr : internalDrawPaintInstrs
      ({ D with
          graphicStateResources := [c.gsForPaint SkPaint.stock]
          contentEntries :=
            [{ eid := D.nextId
               fState :=
                 { fMatrix := SkMatrix.identity, fClipStack := cs2, fClipRegion := cr2,
                   fColor := 4278190080, fTextScaleX := 0, fTextFill := 0,
                   fShaderIndex := -1, fGraphicStateIndex := 0, fFont := none,
                   fTextSize := none }
               fContent := [] }]
          lastContentEntry := some D.nextId
          nextId := D.nextId + 1 } : Device) SkMatrix.identity 0
      = internalDrawPaintInstrs D SkMatrix.identity 0 := rfl
  have hstyle : SkPaint.stock.style = 0 := rfl
  simp [appendToEntry, hstyle, hinstr]

theorem drawForm_fresh (c : Collab) (D : Device) (xobj : Nat) (cs2 : ClipStack)
    (cr2 : SkRegion) (hln : D.lastContentEntry = none)
    (hgs : D.graphicStateResources = [])
    (hecr : D.existingClipRegion.isEmptyR = false) (hcr : cr2.isEmptyR = false)
    (h1 : c.smaskGS (D.nextId + 1) true ≠ c.gsForPaint SkPaint.stock)
    (h2 : c.noSmaskGS ≠ c.gsForPaint SkPaint.stock)
    (h3 : c.noSmaskGS ≠ c.smaskGS (D.nextId + 1) true) :
    drawFormXObjectWithClip c D xobj cs2 cr2 true
      = { D with
          contentEntries :=
            [{ eid := D.nextId + 1 + 1
               fState :=
                 { fMatrix := SkMatrix.identity, fClipStack := D.existingClipStack,
                   fClipRegion := D.existingClipRegion, fColor := 4278190080,
                   fTextScaleX := 0, fTextFill := 0, fShaderIndex := -1,
                   fGraphicStateIndex := 0, fFont := none, fTextSize := none }
               fContent := [Instr.applyGS 1, Instr.drawXObject 0, Instr.applyGS 2] }]
          lastContentEntry := some (D.nextId + 1 + 1)
          graphicStateResources := [c.gsForPaint SkPaint.stock,
            c.smaskGS (D.nextId + 1) true, c.noSmaskGS]
          xObjectResources := [xobj]
          fontResources := []
          shaderResources := []
          nextId := D.nextId + 1 + 1 + 1 } := by
  unfold drawFormXObjectWithClip
  simp only [Bool.not_true, Bool.and_false, Bool.false_eq_true, if_false]
  rw [drawPaintStock_spec c D cs2 cr2 hln hcr hgs]
  dsimp only [createFormXObjectFromDevice]
  have hsp := setUpPlain_stock_empty c
    { D with
      contentEntries := []
      lastContentEntry := none
      graphicStateResources := []
      xObjectResources := []
      fontResources := []
      shaderResources := []
      nextId := D.nextId + 1 + 1 }
    D.existingClipStack D.existingClipRegion rfl hecr rfl
  rw [hsp]
  dsimp only
  rw [addGS_new _ (c.smaskGS (D.nextId + 1) true) (by simpa using h1)]
  dsimp only
  rw [addGS_new _ c.noSmaskGS (by simp [appendToEntry]; exact ⟨h2, h3⟩)]
  simp [appendToEntry]

/-- `populateGraphicStateEntryFromPaint` stores the requested clip stack and
clip region verbatim in the captured state (lines 1324-1326), for every paint. -/
theorem populate_clip (c : Collab) (d : Device) (m : SkMatrix) (cs : ClipStack)
    (cr : SkRegion) (paint : SkPaint) (ht : Bool) :
    (populateGraphicStateEntryFromPaint c d m cs cr paint ht).1.fClipStack = cs ∧
    (populateGraphicStateEntryFromPaint c d m cs cr paint ht).1.fClipRegion = cr := by
  unfold populateGraphicStateEntryFromPaint
  dsimp only
  rcases paint.shader with _ | sh
  · dsimp only
    cases ht <;> exact ⟨rfl, rfl⟩
  · dsimp only
    rcases c.getPDFShader sh (SkMatrix.postConcatM m d.initialTransform) cr.getBounds
        with _ | ps
    · dsimp only
      rcases c.shaderAsColor sh with _ | gc <;>
        · dsimp only
          cases ht <;> exact ⟨rfl, rfl⟩
    · dsimp only
      cases ht <;> exact ⟨rfl, rfl⟩

/-- `addGraphicStateResource` when the object is already in the table at a
known index: the find step succeeds and nothing is appended. -/
theorem addGS_found (d : Device) (g : Nat) (k : Nat)
    (h : tdFind d.graphicStateResources g = (k : Int)) :
    addGraphicStateResource d g = ((k : Int), d) := by
  unfold addGraphicStateResource
  rw [h, if_neg (by omega)]

/-- `setUpContentEntry` as called with the stock paint on a device whose tail
entry already carries exactly the captured state the call would produce (stock
color, identity matrix, the device's inherited clip, graphic state at table
index 0) and a nonempty buffer: the merge check at lines 1214-1217 succeeds and
the existing tail entry is returned with the chain unchanged. -/
theorem setUpPlain_stock_merge (c : Collab) (D : Device) (E : Nat)
    (bod : List Instr) (rest : List Nat) (cs : ClipStack) (cr : SkRegion)
    (hgs : D.graphicStateResources = c.gsForPaint SkPaint.stock :: rest)
    (hlast : D.lastContentEntry = some E)
    (hhead : D.contentEntries =
      [{ eid := E
         fState :=
           { fMatrix := SkMatrix.identity, fClipStack := cs, fClipRegion := cr,
             fColor := 4278190080, fTextScaleX := 0, fTextFill := 0,
             fShaderIndex := -1, fGraphicStateIndex := 0, fFont := none,
             fTextSize := none }
         fContent := bod }])
    (hbod : bod.isEmpty = false)
    (hecr : cr.isEmptyR = false) :
    setUpPlain c D (some cs) cr SkMatrix.identity SkPaint.stock false
      = (some E, { D with nextId := D.nextId + 1 }) := by
  unfold setUpPlain
  simp only [hecr, Bool.false_eq_true, if_false]
  have hres : resolveClipStack D (some cs) cr = cs := rfl
  rw [hres]
  have hfind : tdFind D.graphicStateResources (c.gsForPaint SkPaint.stock) = 0 := by
    rw [hgs]
    unfold tdFind
    simp
  have haddgs : addGraphicStateResource D (c.gsForPaint SkPaint.stock) = (0, D) := by
    unfold addGraphicStateResource
    rw [hfind, if_neg (by omega)]
  have hle : D.lastEntry? = some
      { eid := E
        fState :=
          { fMatrix := SkMatrix.identity, fClipStack := cs, fClipRegion := cr,
            fColor := 4278190080, fTextScaleX := 0, fTextFill := 0,
            fShaderIndex := -1, fGraphicStateIndex := 0, fFont := none,
            fTextSize := none }
        fContent := bod } := by
    unfold Device.lastEntry?
    rw [hlast, hhead]
    simp
  unfold setUpCoreChain
  rw [hle, populate_stock, haddgs]
  dsimp only
  rw [hbod]
  simp [GraphicStateEntry.compareInitialState]

/-- `finishContentEntry` for source-in (lines 1233-1295) on a device holding
exactly one entry with a nonempty buffer: the accumulated source content is
captured as one form XObject, the destination XObject is registered and drawn
once under the mask graphic state, the source XObject is registered and drawn
once under the destination soft-mask graphic state, and both bracketed passes
land in one fresh entry whose captured state carries the device's inherited
clip stack and region. -/
theorem finish_srcIn_spec (c : Collab) (D1 : Device) (dstX E : Nat)
    (st : GraphicStateEntry) (bod : List Instr)
    (hhead : D1.contentEntries = [{ eid := E, fState := st, fContent := bod }])
    (hbod : bod.isEmpty = false)
    (hcr : st.fClipRegion.isEmptyR = false)
    (hecr : D1.existingClipRegion.isEmptyR = false)
    (h1 : c.smaskGS (D1.nextId + 1 + 1) true ≠ c.gsForPaint SkPaint.stock)
    (h2 : c.noSmaskGS ≠ c.gsForPaint SkPaint.stock)
    (h3 : c.noSmaskGS ≠ c.smaskGS (D1.nextId + 1 + 1) true)
    (h4 : c.smaskGS dstX false ≠ c.gsForPaint SkPaint.stock)
    (h5 : c.smaskGS dstX false ≠ c.smaskGS (D1.nextId + 1 + 1) true)
    (h6 : c.smaskGS dstX false ≠ c.noSmaskGS) :
    finishContentEntry c D1 XferMode.srcIn (some dstX)
      = { D1 with
          contentEntries :=
            [{ eid := D1.nextId + 1 + 1 + 1
               fState :=
                 { fMatrix := SkMatrix.identity, fClipStack := D1.existingClipStack,
                   fClipRegion := D1.existingClipRegion, fColor := 4278190080,
                   fTextScaleX := 0, fTextFill := 0, fShaderIndex := -1,
                   fGraphicStateIndex := 0, fFont := none, fTextSize := none }
               fContent := [Instr.applyGS 1, Instr.drawXObject 0, Instr.applyGS 2,
                 Instr.applyGS 3, Instr.drawXObject 1, Instr.applyGS 2] }]
          lastContentEntry := some (D1.nextId + 1 + 1 + 1)
          graphicStateResources := [c.gsForPaint SkPaint.stock,
            c.smaskGS (D1.nextId + 1 + 1) true, c.noSmaskGS, c.smaskGS dstX false]
          xObjectResources := [dstX, D1.nextId]
          fontResources := []
          shaderResources := []
          nextId := D1.nextId + 1 + 1 + 1 + 1 + 1 } := by
  have hice : D1.isContentEmpty = false := by
    unfold Device.isContentEmpty
    rw [hhead]
    exact hbod
  unfold finishContentEntry
  rw [hhead, hice]
  norm_num
  dsimp only [createFormXObjectFromDevice]
  have hdf := drawForm_fresh c
    { D1 with
      contentEntries := []
      lastContentEntry := none
      graphicStateResources := []
      xObjectResources := []
      fontResources := []
      shaderResources := []
      nextId := D1.nextId + 1 }
    dstX st.fClipStack st.fClipRegion rfl rfl hecr hcr h1 h2 h3
  rw [hdf]
  dsimp only
  rw [setUpPlain_stock_merge c
    { D1 with
      contentEntries :=
        [{ eid := D1.nextId + 1 + 1 + 1
           fState :=
             { fMatrix := SkMatrix.identity, fClipStack := D1.existingClipStack,
               fClipRegion := D1.existingClipRegion, fColor := 4278190080,
               fTextScaleX := 0, fTextFill := 0, fShaderIndex := -1,
               fGraphicStateIndex := 0, fFont := none, fTextSize := none }
           fContent := [Instr.applyGS 1, Instr.drawXObject 0, Instr.applyGS 2] }]
      lastContentEntry := some (D1.nextId + 1 + 1 + 1)
      graphicStateResources := [c.gsForPaint SkPaint.stock,
        c.smaskGS (D1.nextId + 1 + 1) true, c.noSmaskGS]
      xObjectResources := [dstX]
      fontResources := []
      shaderResources := []
      nextId := D1.nextId + 1 + 1 + 1 + 1 }
    (D1.nextId + 1 + 1 + 1)
    [Instr.applyGS 1, Instr.drawXObject 0, Instr.applyGS 2]
    [c.smaskGS (D1.nextId + 1 + 1) true, c.noSmaskGS]
    D1.existingClipStack D1.existingClipRegion
    rfl rfl rfl rfl hecr]
  dsimp only
  norm_num
  rw [show decide (XferMode.srcIn = XferMode.srcOut) = false from rfl]
  rw [addGS_new _ (c.smaskGS dstX false) (by simp; exact ⟨h4, h5, h6⟩)]
  dsimp only
  rw [addGS_found _ c.noSmaskGS 2
    (by norm_num [appendToEntry, tdFind, Ne.symm h2, Ne.symm h3])]
  simp [appendToEntry]

/-- `appendToEntry` on a device whose chain is a single entry with the target
id: the body lands at the end of that entry's buffer. -/
theorem appendToEntry_singleton (d : Device) (E : Nat) (st : GraphicStateEntry)
    (pre post : List Instr) (h : d.contentEntries = [{ eid := E, fState := st, fContent := pre }]) :
    appendToEntry d E post
      = { d with contentEntries := [{ eid := E, fState := st, fContent := pre ++ post }] } := by
  unfold appendToEntry
  rw [h]
  simp

/-- One whole source-in draw call on a device with accumulated content: the
final device state, explicitly. -/
theorem drawCall_srcIn_spec (c : Collab) (d : Device) (cs0 : ClipStack)
    (cr0 : SkRegion) (m : SkMatrix) (paint : SkPaint) (ht : Bool) (body : List Instr)
    (hmode : paint.mode = XferMode.srcIn)
    (hne : d.isContentEmpty = false)
    (hcr : cr0.isEmptyR = false)
    (hecr : d.existingClipRegion.isEmptyR = false)
    (hbody : body.isEmpty = false)
    (h1 : c.smaskGS (d.nextId + 4) true ≠ c.gsForPaint SkPaint.stock)
    (h2 : c.noSmaskGS ≠ c.gsForPaint SkPaint.stock)
    (h3 : c.noSmaskGS ≠ c.smaskGS (d.nextId + 4) true)
    (h4 : c.smaskGS d.nextId false ≠ c.gsForPaint SkPaint.stock)
    (h5 : c.smaskGS d.nextId false ≠ c.smaskGS (d.nextId + 4) true)
    (h6 : c.smaskGS d.nextId false ≠ c.noSmaskGS) :
    drawCall c d (some cs0) cr0 m paint ht body
      = { d with
          contentEntries :=
            [{ eid := d.nextId + 5
               fState :=
                 { fMatrix := SkMatrix.identity, fClipStack := d.existingClipStack,
                   fClipRegion := d.existingClipRegion, fColor := 4278190080,
                   fTextScaleX := 0, fTextFill := 0, fShaderIndex := -1,
                   fGraphicStateIndex := 0, fFont := none, fTextSize := none }
               fContent := [Instr.applyGS 1, Instr.drawXObject 0, Instr.applyGS 2,
                 Instr.applyGS 3, Instr.drawXObject 1, Instr.applyGS 2] }]
          lastContentEntry := some (d.nextId + 5)
          graphicStateResources := [c.gsForPaint SkPaint.stock,
            c.smaskGS (d.nextId + 4) true, c.noSmaskGS, c.smaskGS d.nextId false]
          xObjectResources := [d.nextId, d.nextId + 2]
          fontResources := []
          shaderResources := []
          nextId := d.nextId + 7 } := by
  unfold drawCall
  unfold setUpContentEntry
  rw [hmode]
  simp only [hcr, Bool.false_eq_true, if_false, hne]
  norm_num [show XferMode.srcIn ≠ XferMode.clear from by decide,
    show XferMode.srcIn ≠ XferMode.src from by decide]
  have hres : resolveClipStack d (some cs0) cr0 = cs0 := rfl
  rw [hres]
  dsimp only [createFormXObjectFromDevice]
  rw [setUpCoreChain_emptyChain c
    { d with
      contentEntries := []
      lastContentEntry := none
      graphicStateResources := []
      xObjectResources := []
      fontResources := []
      shaderResources := []
      nextId := d.nextId + 1 }
    cs0 cr0 m XferMode.srcIn paint ht rfl]
  have hsk := populate_skel c
    { d with
      contentEntries := []
      lastContentEntry := none
      graphicStateResources := []
      xObjectResources := []
      fontResources := []
      shaderResources := []
      nextId := d.nextId + 1 }
    m cs0 cr0 paint ht
  rw [hsk.2.2.1]
  dsimp only
  rw [appendToEntry_singleton
    { (populateGraphicStateEntryFromPaint c
        { d with
          contentEntries := []
          lastContentEntry := none
          graphicStateResources := []
          xObjectResources := []
          fontResources := []
          shaderResources := []
          nextId := d.nextId + 1 }
        m cs0 cr0 paint ht).2 with
      contentEntries :=
        [{ eid := d.nextId + 1
           fState := (populateGraphicStateEntryFromPaint c
             { d with
               contentEntries := []
               lastContentEntry := none
               graphicStateResources := []
               xObjectResources := []
               fontResources := []
               shaderResources := []
               nextId := d.nextId + 1 }
             m cs0 cr0 paint ht).1
           fContent := [] }]
      lastContentEntry := some (d.nextId + 1)
      nextId := d.nextId + 1 + 1 }
    (d.nextId + 1)
    (populateGraphicStateEntryFromPaint c
      { d with
        contentEntries := []
        lastContentEntry := none
        graphicStateResources := []
        xObjectResources := []
        fontResources := []
        shaderResources := []
        nextId := d.nextId + 1 }
      m cs0 cr0 paint ht).1
    [] body rfl]
  simp only [List.nil_append]
  rw [finish_srcIn_spec c
    { (populateGraphicStateEntryFromPaint c
        { d with
        contentEntries := []
        lastContentEntry := none
        graphicStateResources := []
        xObjectResources := []
        fontResources := []
        shaderResources := []
        nextId := d.nextId + 1 }
        m cs0 cr0 paint ht).2 with
      contentEntries :=
        [{ eid := d.nextId + 1
           fState := (populateGraphicStateEntryFromPaint c
             { d with
        contentEntries := []
        lastContentEntry := none
        graphicStateResources := []
        xObjectResources := []
        fontResources := []
        shaderResources := []
        nextId := d.nextId + 1 }
             m cs0 cr0 paint ht).1
           fContent := body }]
      lastContentEntry := some (d.nextId + 1)
      nextId := d.nextId + 1 + 1 }
    d.nextId (d.nextId + 1)
    (populateGraphicStateEntryFromPaint c
      { d with
        contentEntries := []
        lastContentEntry := none
        graphicStateResources := []
        xObjectResources := []
        fontResources := []
        shaderResources := []
        nextId := d.nextId + 1 }
      m cs0 cr0 paint ht).1
    body rfl hbody
    (by rw [(populate_clip c
        { d with
        contentEntries := []
        lastContentEntry := none
        graphicStateResources := []
        xObjectResources := []
        fontResources := []
        shaderResources := []
        nextId := d.nextId + 1 }
        m cs0 cr0 paint ht).2]
        exact hcr)
    (by rw [hsk.2.2.2.2.2.1]
        exact hecr)
    h1 h2 h3 h4 h5 h6]
  rw [hsk.2.2.2.2.1, hsk.2.2.2.2.2.1, hsk.2.2.2.2.2.2.1, hsk.2.2.2.2.2.2.2.1,
    hsk.2.2.2.2.2.2.2.2]

/-- C9: for a draw call with blend mode source-in on a device whose accumulated
content is non-empty, the emulation path isolates the destination content into
exactly one form XObject (captured before the source entry is opened, registered
once, and drawn exactly once as XObject index 0), and references it through
exactly one soft-mask graphic-state entry (one `applyGS` of the
destination-mask state, index 3, applied immediately before the source content
is drawn as XObject index 1); both soft-mask passes land in a single content
entry whose captured state carries the device's inherited (unmodified) clip
stack and clip region. -/
theorem c9_src_in_isolation (c : Collab) (d : Device) (cs0 : ClipStack)
    (cr0 : SkRegion) (m : SkMatrix) (paint : SkPaint) (ht : Bool) (body : List Instr)
    (hmode : paint.mode = XferMode.srcIn)
    (hne : d.isContentEmpty = false)
    (hcr : cr0.isEmptyR = false)
    (hecr : d.existingClipRegion.isEmptyR = false)
    (hbody : body.isEmpty = false)
    (h1 : c.smaskGS (d.nextId + 4) true ≠ c.gsForPaint SkPaint.stock)
    (h2 : c.noSmaskGS ≠ c.gsForPaint SkPaint.stock)
    (h3 : c.noSmaskGS ≠ c.smaskGS (d.nextId + 4) true)
    (h4 : c.smaskGS d.nextId false ≠ c.gsForPaint SkPaint.stock)
    (h5 : c.smaskGS d.nextId false ≠ c.smaskGS (d.nextId + 4) true)
    (h6 : c.smaskGS d.nextId false ≠ c.noSmaskGS) :
    drawCall c d (some cs0) cr0 m paint ht body
      = { d with
          contentEntries :=
            [{ eid := d.nextId + 5
               fState :=
                 { fMatrix := SkMatrix.identity, fClipStack := d.existingClipStack,
                   fClipRegion := d.existingClipRegion, fColor := 4278190080,
                   fTextScaleX := 0, fTextFill := 0, fShaderIndex := -1,
                   fGraphicStateIndex := 0, fFont := none, fTextSize := none }
               fContent := [Instr.applyGS 1, Instr.drawXObject 0, Instr.applyGS 2,
                 Instr.applyGS 3, Instr.drawXObject 1, Instr.applyGS 2] }]
          lastContentEntry := some (d.nextId + 5)
          graphicStateResources := [c.gsForPaint SkPaint.stock,
            c.smaskGS (d.nextId + 4) true, c.noSmaskGS, c.smaskGS d.nextId false]
          xObjectResources := [d.nextId, d.nextId + 2]
          fontResources := []
          shaderResources := []
          nextId := d.nextId + 7 } ∧
    ∀ e ∈ (drawCall c d (some cs0) cr0 m paint ht body).contentEntries,
      countInstr (Instr.drawXObject 0) e.fContent = 1 ∧
      countInstr (Instr.applyGS 3) e.fContent = 1 ∧
      e.fState.fClipStack = d.existingClipStack ∧
      e.fState.fClipRegion = d.existingClipRegion := by
  have hdc := drawCall_srcIn_spec c d cs0 cr0 m paint ht body hmode hne hcr hecr
    hbody h1 h2 h3 h4 h5 h6
  refine ⟨hdc, ?_⟩
  rw [hdc]
  intro e he
  simp only [List.mem_singleton] at he
  subst he
  exact ⟨rfl, rfl, rfl, rfl⟩

theorem c9_witness :
    dEx1.isContentEmpty = false ∧
    (drawCall cEx dEx1 (some [elRect]) rEx SkMatrix.identity paintSrcIn false
        [Instr.clipNonZero]).contentEntries.length = 1 ∧
    (drawCall cEx dEx1 (some [elRect]) rEx SkMatrix.identity paintSrcIn false
        [Instr.clipNonZero]).xObjectResources = [1, 3] ∧
    ∀ e ∈ (drawCall cEx dEx1 (some [elRect]) rEx SkMatrix.identity paintSrcIn false
        [Instr.clipNonZero]).contentEntries,
      countInstr (Instr.drawXObject 0) e.fContent = 1 ∧
      countInstr (Instr.applyGS 3) e.fContent = 1 ∧
      e.fState.fClipStack = dEx1.existingClipStack ∧
      e.fState.fClipRegion = dEx1.existingClipRegion :=
  let h := c9_src_in_isolation cEx dEx1 [elRect] rEx SkMatrix.identity paintSrcIn
    false [Instr.clipNonZero] (by decide) (by decide) (by decide) (by decide)
    (by decide) (by decide) (by decide) (by decide) (by decide) (by decide)
    (by decide)
  ⟨by decide, by rw [h.1]; decide, by rw [h.1]; decide, h.2⟩
